import Mathlib

/-!
# wallet-backend: metrics service and TSS transaction service

A shallow embedding of `internal/metrics/metrics.go` (namespace `metrics`) and of the
test file `internal/tss/services/transaction_service_test.go` (namespace `services`).
The transaction service the test exercises is not among the sources: its methods are
modelled from the spec, each marked as such, and the test itself is embedded from the
source, with the mocks of `testify/mock`, so that a method can be run against it.  The
two builders of `txnbuild`, a library outside the repository, are parameters of the
modelled methods.

Conventions of the embedding.

* A Go `string` is a Lean `String`.  Prometheus rejects label values that are
  not valid UTF-8 (`WithLabelValues` panics on them); a Lean `String` is always
  valid Unicode, so the embedding covers exactly the label values for which
  `WithLabelValues` returns.
* The value of a gauge is a `float64` that only ever receives `Inc` and `Dec`
  here; it is embedded as an `Int`, which is exact for every magnitude below
  `2^53`.
* Pointers to worker pools are embedded as references into a heap that maps
  each reference to the pool's state at the time of a read.
* A Go panic is `none`.
-/

namespace metrics

/-! ## Data model -/

/-- Label values of one child of `tssTransactionCurrentStates`, whose label
names are `channel` and `status`. -/
abbrev LabelValues := String × String

/-- A `prometheus.GaugeVec` over the labels `channel`, `status`: the children
created so far, each with its current value. -/
structure GaugeVec where
  children : List (LabelValues × Int)
deriving DecidableEq, Repr

/-- The vector `prometheus.NewGaugeVec` returns: no child yet. -/
def NewGaugeVec : GaugeVec := ⟨[]⟩

/-- Look the child with label values `lvs` up; `none` when it was never created. -/
def findChild (lvs : LabelValues) : List (LabelValues × Int) → Option Int
  | [] => none
  | (k, v) :: rest => if k = lvs then some v else findChild lvs rest

/-- Effect of `WithLabelValues(lvs).Add(d)` on the children: the child is created
with value `0` when absent, then `d` is added to it. -/
def addTo (lvs : LabelValues) (d : Int) : List (LabelValues × Int) → List (LabelValues × Int)
  | [] => [(lvs, 0 + d)]
  | (k, v) :: rest => if k = lvs then (k, v + d) :: rest else (k, v) :: addTo lvs d rest

/-- The count of `(channel, status)`: the value of that child, `0` when it does not exist. -/
def GaugeVec.count (g : GaugeVec) (channel status : String) : Int :=
  (findChild (channel, status) g.children).getD 0

/-- Go: `g.WithLabelValues(channel, status).Inc()`. -/
def GaugeVec.Inc (g : GaugeVec) (channel status : String) : GaugeVec :=
  ⟨addTo (channel, status) 1 g.children⟩

/-- Go: `g.WithLabelValues(channel, status).Dec()`. -/
def GaugeVec.Dec (g : GaugeVec) (channel status : String) : GaugeVec :=
  ⟨addTo (channel, status) (-1) g.children⟩

/-- Sum of the values of the children whose `channel` label is `channel` in a list of children. -/
def sumChannel (channel : String) (l : List (LabelValues × Int)) : Int :=
  ((l.filter (fun e => decide (e.1.1 = channel))).map (fun e => e.2)).sum

/-- Sum of the counts over all statuses of `channel`. -/
def GaugeVec.channelTotal (g : GaugeVec) (channel : String) : Int :=
  sumChannel channel g.children

/-- No two children carry the same label values (a Go map has one entry per key). -/
def GaugeVec.Distinct (g : GaugeVec) : Prop :=
  (g.children.map (fun e => e.1)).Nodup

/-- Reference to a `*pond.WorkerPool`. -/
abbrev PoolRef := Nat

/-- What the accessor methods of a `pond.WorkerPool` return at one moment
(`int` for the worker counts, `uint64` for the task counts). -/
structure WorkerPool where
  RunningWorkers : Int
  IdleWorkers : Int
  SubmittedTasks : Nat
  WaitingTasks : Nat
  SuccessfulTasks : Nat
  FailedTasks : Nat
  CompletedTasks : Nat
deriving DecidableEq, Repr

/-- State of every worker pool at the moment a metric is read. -/
abbrev PoolHeap := PoolRef → WorkerPool

/-- Kind of a registered collector. -/
inductive CollectorKind where
  | Gauge | GaugeVec | Counter | CounterVec | SummaryVec | GaugeFunc | CounterFunc | StatsCollector
deriving DecidableEq, Repr

/-- A collector handed to the registry: its options and, for `NewGaugeFunc` and
`NewCounterFunc`, the function evaluated at every read. -/
structure Collector where
  Kind : CollectorKind
  Name : String
  Help : String
  ConstLabels : List (String × String)
  VariableLabels : List String
  function : Option (PoolHeap → Float)

/-- The fields of `MetricsService` the embedded operations read or write. -/
structure MetricsService where
  registry : List Collector
  tssTransactionCurrentStates : GaugeVec
  pools : List (String × PoolRef)

/-! ## TSS transaction status metrics -/

/-- Go: `RecordTSSTransactionStatusTransition` (metrics.go, lines 399-404). -/
def RecordTSSTransactionStatusTransition (m : MetricsService)
    (channel oldStatus newStatus : String) : MetricsService :=
  let m1 : MetricsService :=
    if oldStatus ≠ "" then
      { m with tssTransactionCurrentStates := m.tssTransactionCurrentStates.Dec channel oldStatus }
    else m
  { m1 with tssTransactionCurrentStates := m1.tssTransactionCurrentStates.Inc channel newStatus }

/-- Shorthand: the count of `(channel, status)` in a service. -/
def MetricsService.count (m : MetricsService) (channel status : String) : Int :=
  m.tssTransactionCurrentStates.count channel status

/-- Shorthand: the sum of the counts over all statuses of `channel` in a service. -/
def MetricsService.channelTotal (m : MetricsService) (channel : String) : Int :=
  m.tssTransactionCurrentStates.channelTotal channel

/-- A service whose only content is the given children of `tssTransactionCurrentStates`. -/
def serviceWith (children : List (LabelValues × Int)) : MetricsService :=
  { registry := [], tssTransactionCurrentStates := ⟨children⟩, pools := [] }

/-- The atomic updates `RecordTSSTransactionStatusTransition` performs, in program
order.  Each `WithLabelValues(..).Dec()` / `.Inc()` updates one child atomically;
the method holds no lock across the two statements. -/
def transitionUpdates (channel oldStatus newStatus : String) :
    List (MetricsService → MetricsService) :=
  (if oldStatus ≠ "" then
      [fun m => { m with tssTransactionCurrentStates := m.tssTransactionCurrentStates.Dec channel oldStatus }]
    else []) ++
  [fun m => { m with tssTransactionCurrentStates := m.tssTransactionCurrentStates.Inc channel newStatus }]

/-- The states a reader running concurrently with a sequence of atomic updates can
see: the state before the first update, the state between any two consecutive
updates, and the state after the last one. -/
def observableStates (m : MetricsService) : List (MetricsService → MetricsService) → List MetricsService
  | [] => [m]
  | f :: fs => m :: observableStates (f m) fs

/-- The state after all the updates of a sequence have run. -/
def runUpdates (m : MetricsService) (fs : List (MetricsService → MetricsService)) : MetricsService :=
  fs.foldl (fun s f => f s) m

/-- One call of `RecordTSSTransactionStatusTransition`: its three arguments. -/
structure TransitionCall where
  channel : String
  oldStatus : String
  newStatus : String
deriving DecidableEq, Repr

/-- The service after a finite sequence of `RecordTSSTransactionStatusTransition` calls. -/
def recordAll (m : MetricsService) (calls : List TransitionCall) : MetricsService :=
  calls.foldl (fun s c => RecordTSSTransactionStatusTransition s c.channel c.oldStatus c.newStatus) m

/-- Number of calls of a sequence made with channel `channel` and an empty `oldStatus`. -/
def firstObservations (channel : String) (calls : List TransitionCall) : Nat :=
  calls.countP (fun c => decide (c.channel = channel ∧ c.oldStatus = ""))

/-! ## Construction -/

/-- Options of a collector without constant labels and without a function. -/
def plainCollector (kind : CollectorKind) (name help : String) (labels : List String) : Collector :=
  { Kind := kind, Name := name, Help := help, ConstLabels := [], VariableLabels := labels,
    function := none }

/-- Go: the collectors `NewMetricsService` creates and `registerMetrics` hands to
`MustRegister`, in that order: the `sqlstats` collector (its `Name` here is the database
name it is given, not a metric name), then the eighteen metrics of metrics.go,
lines 61-198. -/
def fixedCollectors : List Collector :=
  [ plainCollector .StatsCollector "wallet-backend-db" "" [],
    plainCollector .GaugeVec "num_payment_ops_ingested_per_ledger"
      "Number of payment operations ingested per ledger" ["operation_type"],
    plainCollector .GaugeVec "num_tss_transactions_ingested_per_ledger"
      "Number of tss transactions ingested per ledger" ["status"],
    plainCollector .Gauge "latest_ledger_ingested" "Latest ledger ingested" [],
    plainCollector .SummaryVec "ingestion_duration_seconds" "Duration of ledger ingestion" ["type"],
    plainCollector .Counter "num_tss_transactions_submitted"
      "Total number of transactions submitted to TSS" [],
    plainCollector .SummaryVec "tss_transaction_inclusion_time_seconds"
      "Time from transaction submission to ledger inclusion (success or failure)" ["status"],
    plainCollector .Gauge "active_accounts" "Number of currently registered active accounts" [],
    plainCollector .CounterVec "rpc_requests_total" "Total number of RPC requests" ["endpoint"],
    plainCollector .SummaryVec "rpc_requests_duration_seconds"
      "Duration of RPC requests in seconds" ["endpoint"],
    plainCollector .CounterVec "rpc_endpoint_failures_total"
      "Total number of RPC endpoint failures" ["endpoint"],
    plainCollector .CounterVec "rpc_endpoint_successes_total"
      "Total number of successful RPC requests" ["endpoint"],
    plainCollector .Gauge "rpc_service_health"
      "RPC service health status (1 for healthy, 0 for unhealthy)" [],
    plainCollector .Gauge "rpc_latest_ledger" "Latest ledger number reported by the RPC service" [],
    plainCollector .GaugeVec "tss_transaction_current_states"
      "Current number of TSS transactions in each state" ["channel", "status"],
    plainCollector .CounterVec "http_requests_total" "Total number of HTTP requests"
      ["endpoint", "method", "status_code"],
    plainCollector .SummaryVec "http_request_duration_seconds"
      "Duration of HTTP requests in seconds" ["endpoint", "method"],
    plainCollector .SummaryVec "db_query_duration_seconds" "Duration of database queries"
      ["query_type", "table"],
    plainCollector .CounterVec "db_queries_total" "Total number of database queries"
      ["query_type", "table"] ]

/-- Go: `NewMetricsService`.  The registry is new and the registered names are fixed,
valid and pairwise distinct, so `registerMetrics` always returns; the gauge vector
starts without children and the pool map is empty.  The database handle only reaches the
`sqlstats` collector and is left out. -/
def NewMetricsService : MetricsService :=
  { registry := fixedCollectors, tssTransactionCurrentStates := NewGaugeVec, pools := [] }

/-! ## Worker pool metrics -/

/-- Go: `prometheus.NewGaugeFunc(prometheus.GaugeOpts{Name, Help, ConstLabels}, function)`. -/
def NewGaugeFunc (name help : String) (constLabels : List (String × String))
    (function : PoolHeap → Float) : Collector :=
  { Kind := .GaugeFunc, Name := name, Help := help, ConstLabels := constLabels,
    VariableLabels := [], function := some function }

/-- Go: `prometheus.NewCounterFunc(prometheus.CounterOpts{Name, Help, ConstLabels}, function)`. -/
def NewCounterFunc (name help : String) (constLabels : List (String × String))
    (function : PoolHeap → Float) : Collector :=
  { Kind := .CounterFunc, Name := name, Help := help, ConstLabels := constLabels,
    VariableLabels := [], function := some function }

/-- Go: `registry.MustRegister(c)`.  The checks of the Prometheus registry (a valid
descriptor that collides with none already registered) belong to a library outside
this repository and enter as the parameter `accepts`; a rejected collector makes
`MustRegister` panic, which is `none`. -/
def MustRegister (accepts : List Collector → Collector → Bool) (registry : List Collector)
    (c : Collector) : Option (List Collector) :=
  if accepts registry c then some (registry ++ [c]) else none

/-- Go: `m.pools[channel] = pool` on the pool map. -/
def setPool (channel : String) (pool : PoolRef) : List (String × PoolRef) → List (String × PoolRef)
  | [] => [(channel, pool)]
  | (k, v) :: rest => if k = channel then (k, pool) :: rest else (k, v) :: setPool channel pool rest

/-- Go: `RegisterPoolMetrics` (metrics.go, lines 229-308).  Every registered function
closes over the pool pointer and calls the pool's accessor when it is read; `float64(..)`
of an `int` is `Float.ofInt` and of a `uint64` is `Float.ofNat`.  The result is `none`
when one of the `MustRegister` calls panics. -/
def RegisterPoolMetrics (accepts : List Collector → Collector → Bool) (m : MetricsService)
    (channel : String) (pool : PoolRef) : Option MetricsService := do
  let pools := setPool channel pool m.pools
  let r ← MustRegister accepts m.registry
    (NewGaugeFunc ("pool_workers_running_" ++ channel) "Number of running worker goroutines"
      [("channel", channel)] (fun heap => Float.ofInt (heap pool).RunningWorkers))
  let r ← MustRegister accepts r
    (NewGaugeFunc ("pool_workers_idle_" ++ channel) "Number of idle worker goroutines"
      [("channel", channel)] (fun heap => Float.ofInt (heap pool).IdleWorkers))
  let r ← MustRegister accepts r
    (NewCounterFunc ("pool_tasks_submitted_total_" ++ channel) "Number of tasks submitted"
      [("channel", channel)] (fun heap => Float.ofNat (heap pool).SubmittedTasks))
  let r ← MustRegister accepts r
    (NewGaugeFunc ("pool_tasks_waiting_" ++ channel) "Number of tasks currently waiting in the queue"
      [("channel", channel)] (fun heap => Float.ofNat (heap pool).WaitingTasks))
  let r ← MustRegister accepts r
    (NewCounterFunc ("pool_tasks_successful_total_" ++ channel)
      "Number of tasks that completed successfully"
      [("channel", channel)] (fun heap => Float.ofNat (heap pool).SuccessfulTasks))
  let r ← MustRegister accepts r
    (NewCounterFunc ("pool_tasks_failed_total_" ++ channel)
      "Number of tasks that completed with panic"
      [("channel", channel)] (fun heap => Float.ofNat (heap pool).FailedTasks))
  let r ← MustRegister accepts r
    (NewCounterFunc ("pool_tasks_completed_total_" ++ channel)
      "Number of tasks that completed either successfully or with panic"
      [("channel", channel)] (fun heap => Float.ofNat (heap pool).CompletedTasks))
  pure { m with registry := r, pools := pools }

/-- What a registered function collector reports when it is read while the pools are in
state `heap`; `none` for a collector without a function. -/
def Collector.read (c : Collector) (heap : PoolHeap) : Option Float :=
  c.function.map (fun f => f heap)

/-- A registry check that rejects a collector whose name is already registered. -/
def rejectRegisteredName (registry : List Collector) (c : Collector) : Bool :=
  registry.all (fun r => decide (r.Name ≠ c.Name))

/-! ## Metric names -/

/-- Go: the seven name formats of `RegisterPoolMetrics` (metrics.go, lines 234-300), each
without its trailing `%s`, in the order of the calls. -/
def poolMetricStems : List String :=
  ["pool_workers_running_", "pool_workers_idle_", "pool_tasks_submitted_total_",
   "pool_tasks_waiting_", "pool_tasks_successful_total_", "pool_tasks_failed_total_",
   "pool_tasks_completed_total_"]

/-- Go: `fmt.Sprintf(format, channel)` for each of the seven formats: the metric names
`RegisterPoolMetrics` builds for a channel. -/
def poolMetricNames (channel : String) : List String :=
  poolMetricStems.map (fun stem => stem ++ channel)

/-- The names of the metrics `NewMetricsService` registers: those of `fixedCollectors`
without the `sqlstats` collector. -/
def fixedMetricNames : List String :=
  (fixedCollectors.filter (fun c => decide (c.Kind ≠ CollectorKind.StatsCollector))).map
    (fun c => c.Name)

/-- Whether two character sequences differ at a position that both have. -/
def differWithin : List Char → List Char → Bool
  | a :: as, b :: bs => decide (a ≠ b) || differWithin as bs
  | _, _ => false

end metrics

namespace services

/-! ## Go values seen by the transaction service and its test -/

/-- A `context.Context`; `Background` is `context.Background()`. -/
abbrev Context := Nat

/-- Go: `context.Background()`. -/
def Background : Context := 0

/-- A `txnbuild.Operation`; the test builds `txnbuild.Payment` values. -/
structure Operation where
  Destination : String
  Amount : String
  Asset : String
  SourceAccount : String
deriving DecidableEq, Repr

/-- A `txnbuild.Transaction` as far as the service and its test look at it. -/
structure Transaction where
  SourceAccount : String
  Sequence : Int
  Operations : List Operation
  BaseFee : Int
  Timeout : Int
  Signatures : List String
deriving DecidableEq, Repr

/-- A `txnbuild.FeeBumpTransaction` as far as the service and its test look at it. -/
structure FeeBumpTransaction where
  Inner : Transaction
  FeeAccount : String
  BaseFee : Int
  Signatures : List String
deriving DecidableEq, Repr

/-- A Go `error`: `none` is `nil`, `some text` an error whose `Error()` is `text`. -/
abbrev GoError := Option String

/-- The two signing clients a transaction service holds. -/
inductive SignatureClient where
  | Distribution
  | Channel
deriving DecidableEq, Repr

/-! ## The service's interaction with its collaborators -/

/-- A call a service method makes on a collaborator. -/
inductive Invocation where
  | GetAccountPublicKey (client : SignatureClient) (ctx : Context)
  | GetAccountLedgerSequence (address : String)
  | SignStellarTransaction (client : SignatureClient) (ctx : Context) (tx : Option Transaction)
      (accounts : List String)
  | SignStellarFeeBumpTransaction (client : SignatureClient) (ctx : Context)
      (feeBumpTx : Option FeeBumpTransaction)
deriving DecidableEq, Repr

/-- A run of a service method: it returns, panics, or calls a collaborator and goes on
with what the collaborator returned. -/
inductive Prog (α : Type) where
  | done (result : α)
  | panic
  | GetAccountPublicKey (client : SignatureClient) (ctx : Context)
      (next : String → GoError → Prog α)
  | GetAccountLedgerSequence (address : String) (next : Int → GoError → Prog α)
  | SignStellarTransaction (client : SignatureClient) (ctx : Context) (tx : Option Transaction)
      (accounts : List String) (next : Option Transaction → GoError → Prog α)
  | SignStellarFeeBumpTransaction (client : SignatureClient) (ctx : Context)
      (feeBumpTx : Option FeeBumpTransaction) (next : Option FeeBumpTransaction → GoError → Prog α)

/-- The collaborators of a service, acting on a state `σ`; `none` is a panic inside
the collaborator. -/
structure Collaborators (σ : Type) where
  GetAccountPublicKey : SignatureClient → Context → σ → Option ((String × GoError) × σ)
  GetAccountLedgerSequence : String → σ → Option ((Int × GoError) × σ)
  SignStellarTransaction : SignatureClient → Context → Option Transaction → List String → σ →
    Option ((Option Transaction × GoError) × σ)
  SignStellarFeeBumpTransaction : SignatureClient → Context → Option FeeBumpTransaction → σ →
    Option ((Option FeeBumpTransaction × GoError) × σ)

/-- Run a service method against collaborators from state `s`: its result, the final
state and the collaborator calls it made, in order (after those of `trace`); `none` when
the run panics. -/
def Prog.exec {α σ : Type} (w : Collaborators σ) : Prog α → σ → List Invocation →
    Option (α × σ × List Invocation)
  | .done result, s, trace => some (result, s, trace)
  | .panic, _, _ => none
  | .GetAccountPublicKey client ctx next, s, trace =>
    match w.GetAccountPublicKey client ctx s with
    | none => none
    | some ((key, err), s2) =>
      (next key err).exec w s2 (trace ++ [.GetAccountPublicKey client ctx])
  | .GetAccountLedgerSequence address next, s, trace =>
    match w.GetAccountLedgerSequence address s with
    | none => none
    | some ((seq, err), s2) =>
      (next seq err).exec w s2 (trace ++ [.GetAccountLedgerSequence address])
  | .SignStellarTransaction client ctx tx accounts next, s, trace =>
    match w.SignStellarTransaction client ctx tx accounts s with
    | none => none
    | some ((signed, err), s2) =>
      (next signed err).exec w s2 (trace ++ [.SignStellarTransaction client ctx tx accounts])
  | .SignStellarFeeBumpTransaction client ctx feeBumpTx next, s, trace =>
    match w.SignStellarFeeBumpTransaction client ctx feeBumpTx s with
    | none => none
    | some ((signed, err), s2) =>
      (next signed err).exec w s2 (trace ++ [.SignStellarFeeBumpTransaction client ctx feeBumpTx])

/-! ## Construction of the service -/

/-- A collaborator that is not nil; which one it is plays no part in the validation. -/
abbrev Ref := Unit

/-- Go: `TransactionServiceOptions`, with the four fields the test sets; a collaborator
is `none` when the field is `nil`. -/
structure TransactionServiceOptions where
  DistributionAccountSignatureClient : Option Ref
  ChannelAccountSignatureClient : Option Ref
  RPCService : Option Ref
  BaseFee : Int
deriving DecidableEq, Repr

/-- Go: the `transactionService` a successful construction returns. -/
structure TransactionService where
  BaseFee : Int
deriving DecidableEq, Repr

/-- Modelled from the spec: `ValidateOptions` is not in the sources, only its test is.
Section 6 lists the checks (distribution signing client, channel signing client, RPC
client, base fee) and section 8 says a base fee at or above the minimum succeeds and one
below fails; the messages are those the test asserts.  `minBaseFee` stands for
`txnbuild.MinBaseFee`. -/
def ValidateOptions (minBaseFee : Int) (o : TransactionServiceOptions) : GoError :=
  if o.DistributionAccountSignatureClient = none then
    some "distribution account signature client cannot be nil"
  else if o.ChannelAccountSignatureClient = none then
    some "channel account signature client cannot be nil"
  else if o.RPCService = none then
    some "rpc client cannot be nil"
  else if o.BaseFee < minBaseFee then
    some "base fee is lower than the minimum network fee"
  else none

/-- Modelled from the spec: `NewTransactionService` is not in the sources.  Section 6:
construction returns a configuration error immediately if any check fails, and the
service is never built in part. -/
def NewTransactionService (minBaseFee : Int) (opts : TransactionServiceOptions) :
    Option TransactionService × GoError :=
  match ValidateOptions minBaseFee opts with
  | some err => (none, some err)
  | none => (some { BaseFee := opts.BaseFee }, none)

/-! ## The two service methods -/

/-- What `BuildAndSignTransactionWithChannelAccount` returns. -/
abbrev SignResult := Option Transaction × GoError

/-- What `BuildFeeBumpTransaction` returns. -/
abbrev FeeBumpResult := Option FeeBumpTransaction × GoError

/-- Go: `fmt.Errorf("<label>: %w", err)`, as text. -/
def wrapError (label cause : String) : String := label ++ ": " ++ cause

/-- The builder of section 4.2, `txnbuild.NewTransaction`, as a function of the source
account, the sequence number, the operations, the fee and the timeout: the unsigned
transaction, or the cause of the failure.  It belongs to a library outside the repository,
so the methods below take it as a parameter. -/
abbrev TransactionBuilder := String → Int → List Operation → Int → Int → Except String Transaction

/-- The envelope builder, `txnbuild.NewFeeBumpTransaction`, as a function of the inner
transaction, the fee account and the fee: the envelope, or the cause of the failure.  It
belongs to a library outside the repository, so the methods below take it as a
parameter. -/
abbrev FeeBumpBuilder := Option Transaction → String → Int → Except String FeeBumpTransaction

/-- Modelled from the spec: `BuildAndSignTransactionWithChannelAccount` is not in the
sources, only its test is.  Section 4.3: four stages, each with its own label in front of
the cause: the public key of the channel account, its sequence number from the RPC
client, the build of section 4.2, and the signature of the channel account for exactly
that one signer.  The service the test builds has the two signing clients and the RPC
client as its only collaborators, and the test's mocks panic on any call they do not
expect, so the lease and the release of sections 4.1 and 4.3 are not calls of this method
on a collaborator; they are not modelled, and nothing is stated about them. -/
def BuildAndSignTransactionWithChannelAccount (NewTransaction : TransactionBuilder)
    (service : TransactionService) (ctx : Context) (operations : List Operation)
    (timeoutInSecs : Int) : Prog SignResult :=
  .GetAccountPublicKey .Channel ctx fun channelAccountPublicKey err =>
    match err with
    | some cause => .done (none, some (wrapError "getting channel account public key" cause))
    | none =>
      .GetAccountLedgerSequence channelAccountPublicKey fun channelAccountSeq err =>
        match err with
        | some cause =>
          .done (none, some (wrapError "getting channel account details from network" cause))
        | none =>
          match NewTransaction channelAccountPublicKey channelAccountSeq operations
              service.BaseFee timeoutInSecs with
          | .error cause => .done (none, some (wrapError "building transaction" cause))
          | .ok tx =>
            .SignStellarTransaction .Channel ctx (some tx) [channelAccountPublicKey]
              fun signed err =>
                match err with
                | some cause =>
                  .done (none, some (wrapError "signing transaction with channel account" cause))
                | none => .done (signed, none)

/-- Modelled from the spec: `BuildFeeBumpTransaction` is not in the sources, only its test
is.  The stages of section 4.4 in the order the test observes them: the public key of the
distribution account, then the build (which is where a missing inner transaction is
found), then the signature; the text in front of the build's cause is the one the test
asserts, without a colon. -/
def BuildFeeBumpTransaction (NewFeeBumpTransaction : FeeBumpBuilder)
    (service : TransactionService) (ctx : Context) (tx : Option Transaction) :
    Prog FeeBumpResult :=
  .GetAccountPublicKey .Distribution ctx fun distributionAccountPublicKey err =>
    match err with
    | some cause => .done (none, some (wrapError "getting distribution account public key" cause))
    | none =>
      match NewFeeBumpTransaction tx distributionAccountPublicKey service.BaseFee with
      | .error cause => .done (none, some ("building fee-bump transaction " ++ cause))
      | .ok feeBumpTx =>
        .SignStellarFeeBumpTransaction .Distribution ctx (some feeBumpTx) fun signed err =>
          match err with
          | some cause =>
            .done (none, some (wrapError
              "signing the fee bump transaction with distribution account" cause))
          | none => .done (signed, none)

/-! ## The mocks of the test (`testify/mock`) -/

/-- A Go value that crosses the boundary of a mock. -/
inductive Value where
  | nil
  | ctx (c : Context)
  | str (s : String)
  | int64 (n : Int)
  | strs (l : List String)
  | tx (t : Option Transaction)
  | feeBumpTx (t : Option FeeBumpTransaction)
  | error (text : String)
deriving DecidableEq, Repr

/-- Go: `reflect.TypeOf(v).String()`; `none` for an untyped nil, which has no type, and for
a context other than `context.Background()`, whose type depends on how it was derived.
The test matches by type only against the two transaction types. -/
def Value.typeString : Value → Option String
  | .nil => none
  | .ctx c => if c = Background then some "context.backgroundCtx" else none
  | .str _ => some "string"
  | .int64 _ => some "int64"
  | .strs _ => some "[]string"
  | .tx _ => some "*txnbuild.Transaction"
  | .feeBumpTx _ => some "*txnbuild.FeeBumpTransaction"
  | .error _ => some "*errors.errorString"

/-- An expected argument: a value to compare with, or `mock.AnythingOfType(t)`. -/
inductive Matcher where
  | eq (v : Value)
  | AnythingOfType (t : String)
deriving DecidableEq, Repr

/-- Whether an actual argument satisfies an expected one. -/
def Matcher.accepts : Matcher → Value → Bool
  | .eq v, actual => decide (v = actual)
  | .AnythingOfType t, actual => decide (actual.typeString = some t)

/-- Go: `Arguments.Diff` reports no difference. -/
def argumentsMatch : List Matcher → List Value → Bool
  | [], [] => true
  | e :: es, a :: as => e.accepts a && argumentsMatch es as
  | _, _ => false

/-- Go: `mock.Call`, an expectation. `Repeatability` is `1` after `Once()` and `-1` once
the expectation is used up. -/
structure Call where
  Method : String
  Arguments : List Matcher
  ReturnArguments : List Value
  Repeatability : Int
  totalCalls : Nat
deriving DecidableEq, Repr

/-- Go: `mock.Mock`: the expectations and the calls received so far. -/
structure Mock where
  ExpectedCalls : List Call
  Calls : List (String × List Value)
deriving DecidableEq, Repr

/-- A mock fresh from its zero value. -/
def Mock.new : Mock := { ExpectedCalls := [], Calls := [] }

/-- Go: `m.On(method, arguments...).Return(returns...).Once()`. -/
def Mock.OnReturnOnce (m : Mock) (method : String) (arguments : List Matcher)
    (returns : List Value) : Mock :=
  { m with ExpectedCalls := m.ExpectedCalls ++
      [{ Method := method, Arguments := arguments, ReturnArguments := returns,
         Repeatability := 1, totalCalls := 0 }] }

/-- Go: the expectation after one more call was served from it. -/
def Call.served (c : Call) : Call :=
  { c with
    Repeatability :=
      if c.Repeatability = 1 then -1
      else if c.Repeatability > 1 then c.Repeatability - 1
      else c.Repeatability,
    totalCalls := c.totalCalls + 1 }

/-- Go: `findExpectedCall` followed by the bookkeeping of `MethodCalled`: the first
expectation for the method whose arguments match and which is not used up serves the
call; `none` when there is none (the mock panics). -/
def serve (method : String) (arguments : List Value) : List Call → Option (List Value × List Call)
  | [] => none
  | c :: rest =>
    if c.Method = method ∧ argumentsMatch c.Arguments arguments = true ∧ c.Repeatability > -1 then
      some (c.ReturnArguments, c.served :: rest)
    else
      match serve method arguments rest with
      | none => none
      | some (returns, rest2) => some (returns, c :: rest2)

/-- Go: `m.Called(arguments...)` inside the mock's method `method`. -/
def Mock.Called (m : Mock) (method : String) (arguments : List Value) : Option (List Value × Mock) :=
  match serve method arguments m.ExpectedCalls with
  | none => none
  | some (returns, calls) =>
    some (returns, { ExpectedCalls := calls, Calls := m.Calls ++ [(method, arguments)] })

/-- Go: `methodWasCalled`. -/
def Mock.methodWasCalled (m : Mock) (method : String) (expected : List Matcher) : Bool :=
  m.Calls.any (fun c => decide (c.1 = method) && argumentsMatch expected c.2)

/-- Go: `checkExpectation` for a call that is not optional. -/
def Mock.checkExpectation (m : Mock) (call : Call) : Bool :=
  if !m.methodWasCalled call.Method call.Arguments && decide (call.totalCalls = 0) then false
  else if call.Repeatability > 0 then false
  else true

/-- Go: `m.AssertExpectations(t)`. -/
def Mock.AssertExpectations (m : Mock) : Bool :=
  m.ExpectedCalls.all (fun call => m.checkExpectation call)

/-- The three mocks a test function shares among its subtests. -/
structure Mocks where
  distributionAccountSignatureClient : Mock
  channelAccountSignatureClient : Mock
  mockRPCService : Mock
deriving DecidableEq, Repr

/-- The mocks as a test function declares them. -/
def Mocks.new : Mocks :=
  { distributionAccountSignatureClient := Mock.new, channelAccountSignatureClient := Mock.new,
    mockRPCService := Mock.new }

/-- The mock behind a signing client of the service. -/
def Mocks.client (ms : Mocks) : SignatureClient → Mock
  | .Distribution => ms.distributionAccountSignatureClient
  | .Channel => ms.channelAccountSignatureClient

/-- Put a signing client's mock back after a call. -/
def Mocks.setClient (ms : Mocks) : SignatureClient → Mock → Mocks
  | .Distribution, m => { ms with distributionAccountSignatureClient := m }
  | .Channel, m => { ms with channelAccountSignatureClient := m }

/-- Go: `args.Error(i)` on a return value; `none` when the value is no error (a panic). -/
def asError : Value → Option GoError
  | .nil => some none
  | .error text => some (some text)
  | _ => none

/-- The typed returns of the mock methods, read from `ReturnArguments`. -/
def asStringError : List Value → Option (String × GoError)
  | [.str s, e] => (asError e).map (fun err => (s, err))
  | _ => none

def asInt64Error : List Value → Option (Int × GoError)
  | [.int64 n, e] => (asError e).map (fun err => (n, err))
  | _ => none

def asTransactionError : List Value → Option (Option Transaction × GoError)
  | [.nil, e] => (asError e).map (fun err => (none, err))
  | [.tx t, e] => (asError e).map (fun err => (t, err))
  | _ => none

def asFeeBumpTransactionError : List Value → Option (Option FeeBumpTransaction × GoError)
  | [.nil, e] => (asError e).map (fun err => (none, err))
  | [.feeBumpTx t, e] => (asError e).map (fun err => (t, err))
  | _ => none

/-- The mocks as the collaborators of the service under test: `SignatureClientMock` for
both signing clients and `RPCServiceMock` for the RPC client. -/
def mockCollaborators : Collaborators Mocks where
  GetAccountPublicKey client ctx ms :=
    match (ms.client client).Called "GetAccountPublicKey" [.ctx ctx] with
    | none => none
    | some (returns, m) => (asStringError returns).map (fun r => (r, ms.setClient client m))
  GetAccountLedgerSequence address ms :=
    match ms.mockRPCService.Called "GetAccountLedgerSequence" [.str address] with
    | none => none
    | some (returns, m) => (asInt64Error returns).map (fun r => (r, { ms with mockRPCService := m }))
  SignStellarTransaction client ctx tx accounts ms :=
    match (ms.client client).Called "SignStellarTransaction" [.ctx ctx, .tx tx, .strs accounts] with
    | none => none
    | some (returns, m) => (asTransactionError returns).map (fun r => (r, ms.setClient client m))
  SignStellarFeeBumpTransaction client ctx feeBumpTx ms :=
    match (ms.client client).Called "SignStellarFeeBumpTransaction" [.ctx ctx, .feeBumpTx feeBumpTx] with
    | none => none
    | some (returns, m) =>
      (asFeeBumpTransactionError returns).map (fun r => (r, ms.setClient client m))

/-- Run a service method against the mocks: its result and the mocks afterwards, `none`
when a mock or the method panics. -/
def Prog.run {α : Type} (p : Prog α) (ms : Mocks) : Option (α × Mocks) :=
  (p.exec mockCollaborators ms []).map (fun r => (r.1, r.2.1))

/-- Go: `assert.Empty(t, tx)` on a pointer: it is nil or points to a zero value. -/
def assertEmptyTransaction (tx : Option Transaction) : Bool :=
  decide (tx = none ∨ tx = some ⟨"", 0, [], 0, 0, []⟩)

/-- Go: `assert.Empty(t, feeBumpTx)` on a pointer: it is nil or points to a zero value. -/
def assertEmptyFeeBumpTransaction (tx : Option FeeBumpTransaction) : Bool :=
  decide (tx = none ∨ tx = some ⟨⟨"", 0, [], 0, 0, []⟩, "", 0, []⟩)

/-- Go: `assert.Equal(t, expected, err.Error())`; calling `Error()` on a nil error panics. -/
def assertErrorText (expected : String) (err : GoError) : Bool :=
  match err with
  | none => false
  | some text => decide (expected = text)

/-! ## `TestBuildFeeBumpTransaction` (transaction_service_test.go, lines 191-267) -/

/-- A method under test in the place of `BuildFeeBumpTransaction`. -/
abbrev FeeBumpMethod := TransactionService → Context → Option Transaction → Prog FeeBumpResult

/-- The values the test takes from helpers outside the sources: `utils.BuildTestTransaction()`,
`utils.BuildTestFeeBumpTransaction()` and the address of `keypair.MustRandom()` in each
subtest that draws one. -/
structure FeeBumpTestValues where
  testTransaction : Transaction
  testFeeBumpTransaction : FeeBumpTransaction
  address2 : String
  address3 : String
  address4 : String
deriving DecidableEq, Repr

/-- Subtest `distribution_account_signature_client_get_account_public_key_err`; the result
is the state of the mocks when the subtest passes and `none` when it fails. -/
def feeBump_get_account_public_key_err (method : FeeBumpMethod) (txService : TransactionService)
    (v : FeeBumpTestValues) (ms : Mocks) : Option Mocks :=
  let ms := { ms with distributionAccountSignatureClient :=
    (ms.distributionAccountSignatureClient.OnReturnOnce "GetAccountPublicKey"
      [.eq (.ctx Background)] [.str "", .error "channel accounts unavailable"]) }
  match (method txService Background (some v.testTransaction)).run ms with
  | none => none
  | some ((feeBumpTx, err), ms) =>
    if ms.distributionAccountSignatureClient.AssertExpectations
        && assertEmptyFeeBumpTransaction feeBumpTx
        && assertErrorText "getting distribution account public key: channel accounts unavailable" err
    then some ms else none

/-- Subtest `building_tx_fails`. -/
def feeBump_building_tx_fails (method : FeeBumpMethod) (txService : TransactionService)
    (v : FeeBumpTestValues) (ms : Mocks) : Option Mocks :=
  let ms := { ms with distributionAccountSignatureClient :=
    (ms.distributionAccountSignatureClient.OnReturnOnce "GetAccountPublicKey"
      [.eq (.ctx Background)] [.str v.address2, .nil]) }
  match (method txService Background none).run ms with
  | none => none
  | some ((feeBumpTx, err), ms) =>
    if ms.distributionAccountSignatureClient.AssertExpectations
        && assertEmptyFeeBumpTransaction feeBumpTx
        && assertErrorText "building fee-bump transaction inner transaction is missing" err
    then some ms else none

/-- Subtest `signing_feebump_tx_fails`. -/
def feeBump_signing_feebump_tx_fails (method : FeeBumpMethod) (txService : TransactionService)
    (v : FeeBumpTestValues) (ms : Mocks) : Option Mocks :=
  let ms := { ms with distributionAccountSignatureClient :=
    ((ms.distributionAccountSignatureClient.OnReturnOnce "GetAccountPublicKey"
      [.eq (.ctx Background)] [.str v.address3, .nil]).OnReturnOnce "SignStellarFeeBumpTransaction"
      [.eq (.ctx Background), .AnythingOfType "*txnbuild.FeeBumpTransaction"]
      [.nil, .error "unable to sign fee bump transaction"]) }
  match (method txService Background (some v.testTransaction)).run ms with
  | none => none
  | some ((feeBumpTx, err), ms) =>
    if ms.distributionAccountSignatureClient.AssertExpectations
        && assertEmptyFeeBumpTransaction feeBumpTx
        && assertErrorText
          "signing the fee bump transaction with distribution account: unable to sign fee bump transaction"
          err
    then some ms else none

/-- Subtest `returns_singed_feebump_tx`. -/
def feeBump_returns_signed_feebump_tx (method : FeeBumpMethod) (txService : TransactionService)
    (v : FeeBumpTestValues) (ms : Mocks) : Option Mocks :=
  let ms := { ms with distributionAccountSignatureClient :=
    ((ms.distributionAccountSignatureClient.OnReturnOnce "GetAccountPublicKey"
      [.eq (.ctx Background)] [.str v.address4, .nil]).OnReturnOnce "SignStellarFeeBumpTransaction"
      [.eq (.ctx Background), .AnythingOfType "*txnbuild.FeeBumpTransaction"]
      [.feeBumpTx (some v.testFeeBumpTransaction), .nil]) }
  match (method txService Background (some v.testTransaction)).run ms with
  | none => none
  | some ((feeBumpTx, err), ms) =>
    if ms.distributionAccountSignatureClient.AssertExpectations
        && decide (feeBumpTx = some v.testFeeBumpTransaction)
        && decide (err = none)
    then some ms else none

/-- The options both test functions build their service from. -/
def testOptions : TransactionServiceOptions :=
  { DistributionAccountSignatureClient := some (), ChannelAccountSignatureClient := some (),
    RPCService := some (), BaseFee := 114 }

/-- Go: `TestBuildFeeBumpTransaction`: the service is built from the test's options (the
construction error is dropped), then the four subtests run in order on the same mocks.
`true` when every subtest passes. -/
def TestBuildFeeBumpTransaction (minBaseFee : Int) (method : FeeBumpMethod)
    (v : FeeBumpTestValues) : Bool :=
  match (NewTransactionService minBaseFee testOptions).1 with
  | none => false
  | some txService =>
    ((((feeBump_get_account_public_key_err method txService v Mocks.new).bind
      (feeBump_building_tx_fails method txService v)).bind
      (feeBump_signing_feebump_tx_fails method txService v)).bind
      (feeBump_returns_signed_feebump_tx method txService v)).isSome

/-! ## `TestBuildAndSignTransactionWithChannelAccount` (transaction_service_test.go, lines 65-189) -/

/-- A method under test in the place of `BuildAndSignTransactionWithChannelAccount`. -/
abbrev SignMethod := TransactionService → Context → List Operation → Int → Prog SignResult

/-- The values the test takes from helpers outside the sources: the address of
`keypair.MustRandom()` in each subtest that draws one, the payments built from further
random addresses, and `utils.BuildTestTransaction()`. -/
structure SignTestValues where
  address2 : String
  address3 : String
  address4 : String
  address5 : String
  payment4 : Operation
  payment5 : Operation
  signedTx : Transaction
deriving DecidableEq, Repr

/-- Subtest `channel_account_signature_client_get_account_public_key_err`. -/
def sign_get_account_public_key_err (method : SignMethod) (txService : TransactionService)
    (ms : Mocks) : Option Mocks :=
  let ms := { ms with channelAccountSignatureClient :=
    (ms.channelAccountSignatureClient.OnReturnOnce "GetAccountPublicKey"
      [.eq (.ctx Background)] [.str "", .error "channel accounts unavailable"]) }
  match (method txService Background [] 30).run ms with
  | none => none
  | some ((tx, err), ms) =>
    if ms.channelAccountSignatureClient.AssertExpectations
        && assertEmptyTransaction tx
        && assertErrorText "getting channel account public key: channel accounts unavailable" err
    then some ms else none

/-- Subtest `rpc_client_get_account_seq_err`. -/
def sign_rpc_client_get_account_seq_err (method : SignMethod) (txService : TransactionService)
    (v : SignTestValues) (ms : Mocks) : Option Mocks :=
  let ms := { ms with
    channelAccountSignatureClient :=
      (ms.channelAccountSignatureClient.OnReturnOnce "GetAccountPublicKey"
        [.eq (.ctx Background)] [.str v.address2, .nil]),
    mockRPCService :=
      (ms.mockRPCService.OnReturnOnce "GetAccountLedgerSequence"
        [.eq (.str v.address2)] [.int64 0, .error "rpc service down"]) }
  match (method txService Background [] 30).run ms with
  | none => none
  | some ((tx, err), ms) =>
    if ms.channelAccountSignatureClient.AssertExpectations
        && assertEmptyTransaction tx
        && assertErrorText "getting channel account details from horizon: horizon down" err
        && ms.mockRPCService.AssertExpectations
    then some ms else none

/-- Subtest `build_tx_fails`. -/
def sign_build_tx_fails (method : SignMethod) (txService : TransactionService)
    (v : SignTestValues) (ms : Mocks) : Option Mocks :=
  let ms := { ms with
    channelAccountSignatureClient :=
      (ms.channelAccountSignatureClient.OnReturnOnce "GetAccountPublicKey"
        [.eq (.ctx Background)] [.str v.address3, .nil]),
    mockRPCService :=
      (ms.mockRPCService.OnReturnOnce "GetAccountLedgerSequence"
        [.eq (.str v.address3)] [.int64 1, .nil]) }
  match (method txService Background [] 30).run ms with
  | none => none
  | some ((tx, err), ms) =>
    if ms.channelAccountSignatureClient.AssertExpectations
        && assertEmptyTransaction tx
        && assertErrorText "building transaction: transaction has no operations" err
        && ms.mockRPCService.AssertExpectations
    then some ms else none

/-- Subtest `sign_stellar_transaction_w_channel_account_err`. -/
def sign_stellar_transaction_w_channel_account_err (method : SignMethod)
    (txService : TransactionService) (v : SignTestValues) (ms : Mocks) : Option Mocks :=
  let ms := { ms with
    channelAccountSignatureClient :=
      ((ms.channelAccountSignatureClient.OnReturnOnce "GetAccountPublicKey"
        [.eq (.ctx Background)] [.str v.address4, .nil]).OnReturnOnce "SignStellarTransaction"
        [.eq (.ctx Background), .AnythingOfType "*txnbuild.Transaction", .eq (.strs [v.address4])]
        [.nil, .error "unable to sign"]),
    mockRPCService :=
      (ms.mockRPCService.OnReturnOnce "GetAccountLedgerSequence"
        [.eq (.str v.address4)] [.int64 1, .nil]) }
  match (method txService Background [v.payment4] 30).run ms with
  | none => none
  | some ((tx, err), ms) =>
    if ms.channelAccountSignatureClient.AssertExpectations
        && assertEmptyTransaction tx
        && assertErrorText "signing transaction with channel account: unable to sign" err
        && ms.mockRPCService.AssertExpectations
    then some ms else none

/-- Subtest `returns_signed_tx`. -/
def sign_returns_signed_tx (method : SignMethod) (txService : TransactionService)
    (v : SignTestValues) (ms : Mocks) : Option Mocks :=
  let ms := { ms with
    channelAccountSignatureClient :=
      ((ms.channelAccountSignatureClient.OnReturnOnce "GetAccountPublicKey"
        [.eq (.ctx Background)] [.str v.address5, .nil]).OnReturnOnce "SignStellarTransaction"
        [.eq (.ctx Background), .AnythingOfType "*txnbuild.Transaction", .eq (.strs [v.address5])]
        [.tx (some v.signedTx), .nil]),
    mockRPCService :=
      (ms.mockRPCService.OnReturnOnce "GetAccountLedgerSequence"
        [.eq (.str v.address5)] [.int64 1, .nil]) }
  match (method txService Background [v.payment5] 30).run ms with
  | none => none
  | some ((tx, err), ms) =>
    if ms.channelAccountSignatureClient.AssertExpectations
        && decide (tx = some v.signedTx)
        && decide (err = none)
        && ms.mockRPCService.AssertExpectations
    then some ms else none

/-- The subtests of `TestBuildAndSignTransactionWithChannelAccount` in order; each maps the
mocks it starts from to the mocks it leaves when it passes. -/
def signSubtests (method : SignMethod) (txService : TransactionService) (v : SignTestValues) :
    List (Mocks → Option Mocks) :=
  [sign_get_account_public_key_err method txService,
   sign_rpc_client_get_account_seq_err method txService v,
   sign_build_tx_fails method txService v,
   sign_stellar_transaction_w_channel_account_err method txService v,
   sign_returns_signed_tx method txService v]

/-- Go: `TestBuildAndSignTransactionWithChannelAccount`: `true` when the five subtests pass
one after the other on the same mocks and the deferred `AssertExpectations` holds. -/
def TestBuildAndSignTransactionWithChannelAccount (minBaseFee : Int) (method : SignMethod)
    (v : SignTestValues) : Bool :=
  match (NewTransactionService minBaseFee testOptions).1 with
  | none => false
  | some txService =>
    match (signSubtests method txService v).foldl (fun ms subtest => ms.bind subtest)
        (some Mocks.new) with
    | none => false
    | some ms => ms.channelAccountSignatureClient.AssertExpectations

/-- No expectation of the mock can serve a call any more. -/
def Mock.Exhausted (m : Mock) : Prop :=
  ∀ c ∈ m.ExpectedCalls, ¬ c.Repeatability > -1

/-- The expectation `On("GetAccountPublicKey", context.Background()).Return(returns...).Once()`. -/
def expectPublicKey (returns : List Value) : Call :=
  { Method := "GetAccountPublicKey", Arguments := [.eq (.ctx Background)],
    ReturnArguments := returns, Repeatability := 1, totalCalls := 0 }

/-- The other signing client. -/
def SignatureClient.other : SignatureClient → SignatureClient
  | .Distribution => .Channel
  | .Channel => .Distribution

/-! ## Builders and values to run the tests on -/

/-- Whether a text has the shape of an account address: 56 characters, the first a `G`. -/
def looksLikeAddress (s : String) : Bool :=
  decide (s.length = 56) && decide (s.data.head? = some 'G')

/-- A builder to run the tests on, in the place of `txnbuild.NewTransaction`.  `check`
stands for the validation of the library (source account, fee, timeout), whose causes the
sources do not quote; an empty operation list is rejected with the cause the test
quotes. -/
def transactionBuilder (check : String → Int → Int → Int → Option String) : TransactionBuilder :=
  fun source sequence operations fee timeoutInSecs =>
    match check source sequence fee timeoutInSecs with
    | some cause => .error cause
    | none =>
      if operations = [] then .error "transaction has no operations"
      else .ok { SourceAccount := source, Sequence := sequence, Operations := operations,
                 BaseFee := fee, Timeout := timeoutInSecs, Signatures := [] }

/-- A validation for `transactionBuilder` that is not lenient: the source account must look
like an address, the fee and the timeout must not be negative.  The cause texts only tell
the failures apart. -/
def checkTransaction (source : String) (_sequence fee timeoutInSecs : Int) : Option String :=
  if !looksLikeAddress source then some "source account is not an address"
  else if fee < 0 then some "fee is negative"
  else if timeoutInSecs < 0 then some "timeout is negative"
  else none

/-- A builder to run the tests on, in the place of `txnbuild.NewFeeBumpTransaction`.  A nil
inner transaction is rejected with the cause the test quotes; `check` stands for the
further validation of the library, whose causes the sources do not quote. -/
def feeBumpBuilder (check : Transaction → String → Int → Option String) : FeeBumpBuilder :=
  fun inner feeAccount baseFee =>
    match inner with
    | none => .error "inner transaction is missing"
    | some tx =>
      match check tx feeAccount baseFee with
      | some cause => .error cause
      | none =>
        .ok { Inner := tx, FeeAccount := feeAccount, BaseFee := baseFee, Signatures := [] }

/-- A validation for `feeBumpBuilder` that is not lenient: the fee must not be below the
fee of the inner transaction and the fee account must look like an address.  The cause
texts only tell the failures apart. -/
def checkFeeBump (inner : Transaction) (feeAccount : String) (baseFee : Int) : Option String :=
  if baseFee < inner.BaseFee then some "fee is below the fee of the inner transaction"
  else if !looksLikeAddress feeAccount then some "fee account is not an address"
  else none

/-- Values for the helpers of `TestBuildFeeBumpTransaction`, to run it on. -/
def feeBumpTestValues : FeeBumpTestValues :=
  { testTransaction :=
      { SourceAccount := "GCHANNELAAAAAAAAAAAAAAAAAAAAAAAAAAAAAAAAAAAAAAAAAAAAAAAA",
        Sequence := 2,
        Operations :=
          [⟨"GDESTINATIONAAAAAAAAAAAAAAAAAAAAAAAAAAAAAAAAAAAAAAAAAAAA", "10", "native",
            "GSOURCEAAAAAAAAAAAAAAAAAAAAAAAAAAAAAAAAAAAAAAAAAAAAAAAAA"⟩],
        BaseFee := 100, Timeout := 30, Signatures := ["channel"] },
    testFeeBumpTransaction :=
      { Inner :=
          { SourceAccount := "GCHANNELAAAAAAAAAAAAAAAAAAAAAAAAAAAAAAAAAAAAAAAAAAAAAAAA",
            Sequence := 2,
            Operations :=
              [⟨"GDESTINATIONAAAAAAAAAAAAAAAAAAAAAAAAAAAAAAAAAAAAAAAAAAAA", "10", "native",
                "GSOURCEAAAAAAAAAAAAAAAAAAAAAAAAAAAAAAAAAAAAAAAAAAAAAAAAA"⟩],
            BaseFee := 100, Timeout := 30, Signatures := ["channel"] },
        FeeAccount := "GDISTRIBUTIONAAAAAAAAAAAAAAAAAAAAAAAAAAAAAAAAAAAAAAAAAAA",
        BaseFee := 114, Signatures := ["distribution"] },
    address2 := "GDISTRIBUTION2AAAAAAAAAAAAAAAAAAAAAAAAAAAAAAAAAAAAAAAAAA",
    address3 := "GDISTRIBUTION3AAAAAAAAAAAAAAAAAAAAAAAAAAAAAAAAAAAAAAAAAA",
    address4 := "GDISTRIBUTION4AAAAAAAAAAAAAAAAAAAAAAAAAAAAAAAAAAAAAAAAAA" }

/-- Values for the helpers of `TestBuildAndSignTransactionWithChannelAccount`, to run it on. -/
def signTestValues : SignTestValues :=
  { address2 := "GCHANNEL2AAAAAAAAAAAAAAAAAAAAAAAAAAAAAAAAAAAAAAAAAAAAAAA",
    address3 := "GCHANNEL3AAAAAAAAAAAAAAAAAAAAAAAAAAAAAAAAAAAAAAAAAAAAAAA",
    address4 := "GCHANNEL4AAAAAAAAAAAAAAAAAAAAAAAAAAAAAAAAAAAAAAAAAAAAAAA",
    address5 := "GCHANNEL5AAAAAAAAAAAAAAAAAAAAAAAAAAAAAAAAAAAAAAAAAAAAAAA",
    payment4 :=
      ⟨"GDESTINATION4AAAAAAAAAAAAAAAAAAAAAAAAAAAAAAAAAAAAAAAAAAA", "10", "native",
        "GSOURCE4AAAAAAAAAAAAAAAAAAAAAAAAAAAAAAAAAAAAAAAAAAAAAAAA"⟩,
    payment5 :=
      ⟨"GDESTINATION5AAAAAAAAAAAAAAAAAAAAAAAAAAAAAAAAAAAAAAAAAAA", "10", "native",
        "GSOURCE5AAAAAAAAAAAAAAAAAAAAAAAAAAAAAAAAAAAAAAAAAAAAAAAA"⟩,
    signedTx :=
      { SourceAccount := "GCHANNEL5AAAAAAAAAAAAAAAAAAAAAAAAAAAAAAAAAAAAAAAAAAAAAAA",
        Sequence := 2,
        Operations :=
          [⟨"GDESTINATION5AAAAAAAAAAAAAAAAAAAAAAAAAAAAAAAAAAAAAAAAAAA", "10", "native",
            "GSOURCE5AAAAAAAAAAAAAAAAAAAAAAAAAAAAAAAAAAAAAAAAAAAAAAAA"⟩],
        BaseFee := 114, Timeout := 30, Signatures := ["channel"] } }

/-- Go: `TestValidateOptions`, run on a validation in the place of `ValidateOptions`:
`true` when its four subtests pass.  `minBaseFee` stands for `txnbuild.MinBaseFee`. -/
def TestValidateOptions (minBaseFee : Int) (validate : TransactionServiceOptions → GoError) : Bool :=
  assertErrorText "distribution account signature client cannot be nil"
      (validate { DistributionAccountSignatureClient := none,
                  ChannelAccountSignatureClient := some (), RPCService := some (), BaseFee := 114 })
  && assertErrorText "channel account signature client cannot be nil"
      (validate { DistributionAccountSignatureClient := some (),
                  ChannelAccountSignatureClient := none, RPCService := some (), BaseFee := 114 })
  && assertErrorText "rpc client cannot be nil"
      (validate { DistributionAccountSignatureClient := some (),
                  ChannelAccountSignatureClient := some (), RPCService := none, BaseFee := 114 })
  && assertErrorText "base fee is lower than the minimum network fee"
      (validate { DistributionAccountSignatureClient := some (),
                  ChannelAccountSignatureClient := some (), RPCService := some (),
                  BaseFee := minBaseFee - 10 })

end services

/-! # Theorems -/

namespace metrics

/-! ## Helper lemmas on the children of a gauge vector -/

theorem findChild_addTo_same (lvs : LabelValues) (d : Int) (l : List (LabelValues × Int)) :
    (findChild lvs (addTo lvs d l)).getD 0 = (findChild lvs l).getD 0 + d := by
  induction l with
  | nil => simp [addTo, findChild]
  | cons e rest ih =>
    obtain ⟨k, v⟩ := e
    by_cases h : k = lvs
    · simp [addTo, findChild, h]
    · simp [addTo, findChild, h, ih]

theorem findChild_addTo_other (lvs other : LabelValues) (d : Int) (l : List (LabelValues × Int))
    (hne : other ≠ lvs) : findChild other (addTo lvs d l) = findChild other l := by
  induction l with
  | nil => simp [addTo, findChild, Ne.symm hne]
  | cons e rest ih =>
    obtain ⟨k, v⟩ := e
    by_cases h : k = lvs
    · have hk : k ≠ other := by rw [h]; exact Ne.symm hne
      simp [addTo, findChild, h, Ne.symm hne]
    · by_cases hk : k = other
      · subst hk
        simp [addTo, findChild, h]
      · simp [addTo, findChild, h, hk, ih]

theorem sumChannel_addTo (lvs : LabelValues) (d : Int) (channel : String)
    (l : List (LabelValues × Int)) :
    sumChannel channel (addTo lvs d l) = sumChannel channel l + (if lvs.1 = channel then d else 0) := by
  induction l with
  | nil =>
    by_cases hc : lvs.1 = channel <;> simp [addTo, sumChannel, hc]
  | cons e rest ih =>
    obtain ⟨k, v⟩ := e
    by_cases h : k = lvs
    · subst h
      by_cases hc : k.1 = channel
      · simp [addTo, sumChannel, hc]; ring
      · simp [addTo, sumChannel, hc]
    · by_cases hc : k.1 = channel
      · simp only [sumChannel] at ih
        simp [addTo, sumChannel, h, hc, ih]; ring
      · simp only [sumChannel] at ih
        simp [addTo, sumChannel, h, hc, ih]

theorem count_Inc (g : GaugeVec) (c s c2 s2 : String) :
    (g.Inc c s).count c2 s2 = g.count c2 s2 + (if (c2, s2) = (c, s) then 1 else 0) := by
  by_cases h : (c2, s2) = (c, s)
  · rw [if_pos h]
    obtain ⟨rfl, rfl⟩ := Prod.mk.inj h
    exact findChild_addTo_same (c2, s2) 1 g.children
  · rw [if_neg h, add_zero]
    simp only [GaugeVec.count, GaugeVec.Inc]
    rw [findChild_addTo_other (c, s) (c2, s2) 1 g.children h]

theorem count_Dec (g : GaugeVec) (c s c2 s2 : String) :
    (g.Dec c s).count c2 s2 = g.count c2 s2 - (if (c2, s2) = (c, s) then 1 else 0) := by
  by_cases h : (c2, s2) = (c, s)
  · rw [if_pos h]
    obtain ⟨rfl, rfl⟩ := Prod.mk.inj h
    exact findChild_addTo_same (c2, s2) (-1) g.children
  · rw [if_neg h, sub_zero]
    simp only [GaugeVec.count, GaugeVec.Dec]
    rw [findChild_addTo_other (c, s) (c2, s2) (-1) g.children h]

theorem channelTotal_Inc (g : GaugeVec) (c s channel : String) :
    (g.Inc c s).channelTotal channel = g.channelTotal channel + (if c = channel then 1 else 0) :=
  sumChannel_addTo (c, s) 1 channel g.children

theorem channelTotal_Dec (g : GaugeVec) (c s channel : String) :
    (g.Dec c s).channelTotal channel = g.channelTotal channel - (if c = channel then 1 else 0) := by
  have h := sumChannel_addTo (c, s) (-1) channel g.children
  simp only [GaugeVec.channelTotal, GaugeVec.Dec]
  rw [h]
  by_cases hc : c = channel <;> simp [hc]; ring

theorem addTo_keys (lvs : LabelValues) (d : Int) (l : List (LabelValues × Int)) :
    (addTo lvs d l).map (fun e => e.1) =
      if lvs ∈ l.map (fun e => e.1) then l.map (fun e => e.1) else l.map (fun e => e.1) ++ [lvs] := by
  induction l with
  | nil => simp [addTo]
  | cons e rest ih =>
    obtain ⟨k, v⟩ := e
    by_cases h : k = lvs
    · simp [addTo, h]
    · have h2 : lvs ≠ k := Ne.symm h
      by_cases hm : lvs ∈ rest.map (fun e => e.1)
      · rw [if_pos hm] at ih
        have hm2 : lvs ∈ ((k, v) :: rest).map (fun e => e.1) := by
          simp only [List.map_cons, List.mem_cons]; exact Or.inr hm
        rw [if_pos hm2]
        simp [addTo, h, ih]
      · rw [if_neg hm] at ih
        have hm2 : lvs ∉ ((k, v) :: rest).map (fun e => e.1) := by
          simp only [List.map_cons, List.mem_cons, not_or]; exact ⟨h2, hm⟩
        rw [if_neg hm2]
        simp [addTo, h, ih]

theorem addTo_nodup (lvs : LabelValues) (d : Int) (l : List (LabelValues × Int))
    (hl : (l.map (fun e => e.1)).Nodup) : ((addTo lvs d l).map (fun e => e.1)).Nodup := by
  rw [addTo_keys]
  by_cases hm : lvs ∈ l.map (fun e => e.1)
  · rw [if_pos hm]; exact hl
  · rw [if_neg hm]
    rw [List.nodup_append]
    refine ⟨hl, List.nodup_singleton lvs, ?_⟩
    intro a ha hb
    rw [List.mem_singleton] at hb
    exact hm (hb ▸ ha)

theorem Distinct_Record (m : MetricsService) (c old new : String)
    (hm : m.tssTransactionCurrentStates.Distinct) :
    (RecordTSSTransactionStatusTransition m c old new).tssTransactionCurrentStates.Distinct := by
  unfold RecordTSSTransactionStatusTransition
  by_cases h : old = ""
  · simp only [h, ne_eq, not_true_eq_false, if_false]
    exact addTo_nodup _ _ _ hm
  · simp only [h, ne_eq, not_false_eq_true, if_true]
    exact addTo_nodup _ _ _ (addTo_nodup _ _ _ hm)

theorem count_Record (m : MetricsService) (c old new c2 s2 : String) :
    (RecordTSSTransactionStatusTransition m c old new).count c2 s2 =
      m.count c2 s2 - (if old ≠ "" ∧ (c2, s2) = (c, old) then 1 else 0)
        + (if (c2, s2) = (c, new) then 1 else 0) := by
  unfold RecordTSSTransactionStatusTransition MetricsService.count
  by_cases h : old = ""
  · simp only [h, ne_eq, not_true_eq_false, if_false, false_and, sub_zero]
    exact count_Inc _ _ _ _ _
  · simp only [h, ne_eq, not_false_eq_true, if_true, true_and]
    rw [count_Inc, count_Dec]

theorem channelTotal_Record (m : MetricsService) (c old new channel : String) :
    (RecordTSSTransactionStatusTransition m c old new).channelTotal channel =
      m.channelTotal channel + (if old = "" ∧ c = channel then 1 else 0) := by
  unfold RecordTSSTransactionStatusTransition MetricsService.channelTotal
  by_cases h : old = ""
  · simp only [h, ne_eq, not_true_eq_false, if_false, true_and]
    exact channelTotal_Inc _ _ _ _
  · simp only [h, ne_eq, not_false_eq_true, if_true, false_and, if_false, add_zero]
    rw [channelTotal_Inc, channelTotal_Dec]
    ring

/-! ## Claims on `RecordTSSTransactionStatusTransition` -/

/-- C1. With an empty `oldStatus` the call raises the count of `(c, s)` by exactly one
and leaves the count of every other `(channel, status)` pair as it was. -/
theorem first_observation_increments_only_newStatus (m : MetricsService) (c s c2 s2 : String) :
    (RecordTSSTransactionStatusTransition m c "" s).count c2 s2 =
      m.count c2 s2 + (if (c2, s2) = (c, s) then 1 else 0) := by
  rw [count_Record]
  simp

/-- C2. With a non-empty `oldStatus` the call lowers the count of `(c, old)` by one and
raises the count of `(c, new)` by one; the sum of the counts over all statuses of `c`
is the same after the call as before it, and when `old = new` every count is unchanged. -/
theorem transition_moves_one_and_keeps_channel_total (m : MetricsService) (c old new : String)
    (hold : old ≠ "") :
    (∀ c2 s2, (RecordTSSTransactionStatusTransition m c old new).count c2 s2 =
        m.count c2 s2 - (if (c2, s2) = (c, old) then 1 else 0)
          + (if (c2, s2) = (c, new) then 1 else 0)) ∧
    (RecordTSSTransactionStatusTransition m c old new).channelTotal c = m.channelTotal c ∧
    (old = new → ∀ c2 s2,
      (RecordTSSTransactionStatusTransition m c old new).count c2 s2 = m.count c2 s2) := by
  refine ⟨?_, ?_, ?_⟩
  · intro c2 s2
    rw [count_Record]
    simp [hold]
  · rw [channelTotal_Record]
    simp [hold]
  · intro h c2 s2
    rw [count_Record, h]
    by_cases hk : (c2, s2) = (c, new)
    · have hn : new ≠ "" := h ▸ hold
      simp [hk, hn]
    · simp [hk]

theorem transition_moves_one_and_keeps_channel_total_witness :
    ("NEW" : String) ≠ "" ∧
    (RecordTSSTransactionStatusTransition (serviceWith [(("payments", "NEW"), 2)])
        "payments" "NEW" "SENT").channelTotal "payments"
      = (serviceWith [(("payments", "NEW"), 2)]).channelTotal "payments" :=
  ⟨by decide,
   (transition_moves_one_and_keeps_channel_total (serviceWith [(("payments", "NEW"), 2)])
      "payments" "NEW" "SENT" (by decide)).2.1⟩

/-- C3, as stated, fails: a transition out of a status that the spec would call terminal
is applied like any other.  From one record counted under `SUCCESS`, the call with
`oldStatus = SUCCESS` and `newStatus = ERROR` moves it to `ERROR`. -/
theorem transition_out_of_terminal_is_applied :
    (serviceWith [(("payments", "SUCCESS"), 1)]).count "payments" "ERROR" = 0 ∧
    (RecordTSSTransactionStatusTransition (serviceWith [(("payments", "SUCCESS"), 1)])
        "payments" "SUCCESS" "ERROR").count "payments" "ERROR" = 1 ∧
    (RecordTSSTransactionStatusTransition (serviceWith [(("payments", "SUCCESS"), 1)])
        "payments" "SUCCESS" "ERROR").count "payments" "SUCCESS" = 0 := by
  refine ⟨by decide, by decide, by decide⟩

/-- C3, amended. The method has no notion of a terminal status: for every channel `c` and
all statuses `t ≠ s` with `t` non-empty, the call with `oldStatus = t`, `newStatus = s`
lowers the count of `(c, t)` by one and raises the count of `(c, s)` by one. -/
theorem every_transition_is_applied (m : MetricsService) (c t s : String)
    (ht : t ≠ "") (hts : t ≠ s) :
    (RecordTSSTransactionStatusTransition m c t s).count c t = m.count c t - 1 ∧
    (RecordTSSTransactionStatusTransition m c t s).count c s = m.count c s + 1 := by
  have hst : s ≠ t := Ne.symm hts
  constructor
  · rw [count_Record]; simp [ht, hts]
  · rw [count_Record]; simp [ht, hst]

theorem every_transition_is_applied_witness :
    ("SUCCESS" : String) ≠ "" ∧ ("SUCCESS" : String) ≠ "ERROR" ∧
    (RecordTSSTransactionStatusTransition NewMetricsService "payments" "SUCCESS" "ERROR").count
        "payments" "ERROR" = NewMetricsService.count "payments" "ERROR" + 1 :=
  ⟨by decide, by decide,
   (every_transition_is_applied NewMetricsService "payments" "SUCCESS" "ERROR"
      (by decide) (by decide)).2⟩

theorem runUpdates_transitionUpdates (m : MetricsService) (c old new : String) :
    runUpdates m (transitionUpdates c old new) = RecordTSSTransactionStatusTransition m c old new := by
  unfold runUpdates transitionUpdates RecordTSSTransactionStatusTransition
  by_cases h : old = "" <;> simp [h]

theorem channelTotal_recordAll (calls : List TransitionCall) (m : MetricsService) (c : String) :
    (recordAll m calls).channelTotal c = m.channelTotal c + (firstObservations c calls : Int) := by
  induction calls generalizing m with
  | nil => simp [recordAll, firstObservations]
  | cons a rest ih =>
    have hstep : recordAll m (a :: rest) =
        recordAll (RecordTSSTransactionStatusTransition m a.channel a.oldStatus a.newStatus) rest := rfl
    rw [hstep, ih, channelTotal_Record]
    unfold firstObservations
    rw [List.countP_cons]
    by_cases hp : a.channel = c ∧ a.oldStatus = ""
    · have hq : a.oldStatus = "" ∧ a.channel = c := ⟨hp.2, hp.1⟩
      simp [hp, hq]; ring
    · have hq : ¬ (a.oldStatus = "" ∧ a.channel = c) := fun h => hp ⟨h.2, h.1⟩
      simp [hp, hq]

theorem Distinct_recordAll (calls : List TransitionCall) (m : MetricsService)
    (hm : m.tssTransactionCurrentStates.Distinct) :
    (recordAll m calls).tssTransactionCurrentStates.Distinct := by
  induction calls generalizing m with
  | nil => exact hm
  | cons a rest ih => exact ih _ (Distinct_Record m a.channel a.oldStatus a.newStatus hm)

/-- C9, as stated, fails: the decrement and the increment are two separate updates.
With one record counted under `NEW`, a reader running during the call with
`oldStatus = NEW`, `newStatus = SENT` can see the per-channel totals 1, 0, 1 in turn:
between the two updates `NEW` is already lowered and `SENT` not yet raised. -/
theorem reader_sees_decrement_without_increment :
    (observableStates (serviceWith [(("payments", "NEW"), 1)])
        (transitionUpdates "payments" "NEW" "SENT")).map
      (fun s => (s.count "payments" "NEW", s.count "payments" "SENT", s.channelTotal "payments"))
      = [(1, 0, 1), (0, 0, 0), (0, 1, 1)] := by
  decide

/-- C9, amended. A transition with a non-empty `oldStatus` is two atomic updates in a row,
the decrement of `(c, old)` and then the increment of `(c, new)`: a concurrent reader sees
the state before the call, the state in between, or the state after it.  In the state in
between the count of `(c, old)` is lowered and the total of the channel is one below its
value before the call; in the state after the call the total is the one before the call. -/
theorem transition_is_two_atomic_updates (m : MetricsService) (c old new : String)
    (hold : old ≠ "") :
    ∃ mid : MetricsService,
      observableStates m (transitionUpdates c old new) =
        [m, mid, RecordTSSTransactionStatusTransition m c old new] ∧
      mid.count c old = m.count c old - 1 ∧
      (old ≠ new → mid.count c new = m.count c new) ∧
      mid.channelTotal c = m.channelTotal c - 1 ∧
      (RecordTSSTransactionStatusTransition m c old new).channelTotal c = m.channelTotal c := by
  refine ⟨{ m with tssTransactionCurrentStates := m.tssTransactionCurrentStates.Dec c old },
    ?_, ?_, ?_, ?_, ?_⟩
  · simp [transitionUpdates, observableStates, RecordTSSTransactionStatusTransition, hold]
  · simp [MetricsService.count, count_Dec]
  · intro hne
    have h2 : new ≠ old := Ne.symm hne
    simp [MetricsService.count, count_Dec, h2]
  · simp [MetricsService.channelTotal, channelTotal_Dec]
  · rw [channelTotal_Record]; simp [hold]

theorem transition_is_two_atomic_updates_witness :
    ("NEW" : String) ≠ "" ∧
    ∃ mid : MetricsService,
      observableStates NewMetricsService (transitionUpdates "payments" "NEW" "SENT") =
        [NewMetricsService, mid,
          RecordTSSTransactionStatusTransition NewMetricsService "payments" "NEW" "SENT"] ∧
      mid.count "payments" "NEW" = NewMetricsService.count "payments" "NEW" - 1 ∧
      (("NEW" : String) ≠ "SENT" →
        mid.count "payments" "SENT" = NewMetricsService.count "payments" "SENT") ∧
      mid.channelTotal "payments" = NewMetricsService.channelTotal "payments" - 1 ∧
      (RecordTSSTransactionStatusTransition NewMetricsService "payments" "NEW" "SENT").channelTotal
        "payments" = NewMetricsService.channelTotal "payments" :=
  ⟨by decide, transition_is_two_atomic_updates NewMetricsService "payments" "NEW" "SENT" (by decide)⟩

/-- C10. From a fresh service, after any finite sequence of calls, the sum of the counts
over all statuses of a channel `c` is the number of calls made with channel `c` and an
empty `oldStatus`; a call with a non-empty `oldStatus` changes the sum of no channel,
whatever statuses it names.  The children summed carry pairwise distinct label values. -/
theorem channel_total_counts_first_observations (calls : List TransitionCall) (c : String) :
    (recordAll NewMetricsService calls).channelTotal c = (firstObservations c calls : Int) ∧
    (∀ (m : MetricsService) (channel old new : String), old ≠ "" →
      (RecordTSSTransactionStatusTransition m channel old new).channelTotal c = m.channelTotal c) ∧
    (recordAll NewMetricsService calls).tssTransactionCurrentStates.Distinct := by
  refine ⟨?_, ?_, ?_⟩
  · rw [channelTotal_recordAll]
    simp [NewMetricsService, NewGaugeVec, MetricsService.channelTotal, GaugeVec.channelTotal,
      sumChannel]
  · intro m channel old new hold
    rw [channelTotal_Record]; simp [hold]
  · apply Distinct_recordAll
    simp [NewMetricsService, NewGaugeVec, GaugeVec.Distinct]

theorem channel_total_counts_first_observations_witness :
    (recordAll NewMetricsService
        [⟨"payments", "", "NEW"⟩, ⟨"payments", "NEW", "SENT"⟩, ⟨"webhooks", "", "NEW"⟩,
         ⟨"payments", "", "NEW"⟩, ⟨"payments", "SENT", "SUCCESS"⟩]).channelTotal "payments"
      = 2 :=
  (channel_total_counts_first_observations
      [⟨"payments", "", "NEW"⟩, ⟨"payments", "NEW", "SENT"⟩, ⟨"webhooks", "", "NEW"⟩,
       ⟨"payments", "", "NEW"⟩, ⟨"payments", "SENT", "SUCCESS"⟩] "payments").1.trans (by decide)

theorem MustRegister_eq_some (accepts : List Collector → Collector → Bool)
    (r r2 : List Collector) (c : Collector) (h : MustRegister accepts r c = some r2) :
    r2 = r ++ [c] := by
  unfold MustRegister at h
  by_cases ha : accepts r c = true
  · rw [if_pos ha] at h
    exact (Option.some.inj h).symm
  · rw [if_neg ha] at h
    exact absurd h (by simp)

/-- C4. When the registry accepts the collectors labelled with the channel, the call
returns; and whenever it returns, the registry has gained exactly seven collectors, named
after the channel (workers running, workers idle, tasks submitted, tasks waiting, tasks
successful, tasks failed, tasks completed), each labelled `channel = channel`, and
reading any of them in any later state of the pools yields the corresponding counter of
the pool that was passed in, as it is in that state. -/
theorem RegisterPoolMetrics_registers_seven_live_metrics
    (accepts : List Collector → Collector → Bool) (m : MetricsService) (channel : String)
    (pool : PoolRef) :
    ((∀ r c, c.ConstLabels = [("channel", channel)] → accepts r c = true) →
      (RegisterPoolMetrics accepts m channel pool).isSome = true) ∧
    (∀ m2, RegisterPoolMetrics accepts m channel pool = some m2 →
      ∃ cs : List Collector,
        m2.registry = m.registry ++ cs ∧ cs.length = 7 ∧
        cs.map (fun c => c.Name) =
          ["pool_workers_running_" ++ channel, "pool_workers_idle_" ++ channel,
           "pool_tasks_submitted_total_" ++ channel, "pool_tasks_waiting_" ++ channel,
           "pool_tasks_successful_total_" ++ channel, "pool_tasks_failed_total_" ++ channel,
           "pool_tasks_completed_total_" ++ channel] ∧
        (∀ c ∈ cs, c.ConstLabels = [("channel", channel)]) ∧
        (∀ heap : PoolHeap, cs.map (fun c => c.read heap) =
          [some (Float.ofInt (heap pool).RunningWorkers), some (Float.ofInt (heap pool).IdleWorkers),
           some (Float.ofNat (heap pool).SubmittedTasks), some (Float.ofNat (heap pool).WaitingTasks),
           some (Float.ofNat (heap pool).SuccessfulTasks), some (Float.ofNat (heap pool).FailedTasks),
           some (Float.ofNat (heap pool).CompletedTasks)])) := by
  constructor
  · intro hacc
    simp [RegisterPoolMetrics, MustRegister, hacc, NewGaugeFunc, NewCounterFunc]
  · intro m2 h
    simp only [RegisterPoolMetrics, Option.bind_eq_bind, Option.bind_eq_some, Option.pure_def,
      Option.some.injEq] at h
    obtain ⟨r1, h1, r2, h2, r3, h3, r4, h4, r5, h5, r6, h6, r7, h7, hm⟩ := h
    have e1 := MustRegister_eq_some _ _ _ _ h1
    have e2 := MustRegister_eq_some _ _ _ _ h2
    have e3 := MustRegister_eq_some _ _ _ _ h3
    have e4 := MustRegister_eq_some _ _ _ _ h4
    have e5 := MustRegister_eq_some _ _ _ _ h5
    have e6 := MustRegister_eq_some _ _ _ _ h6
    have e7 := MustRegister_eq_some _ _ _ _ h7
    subst e1 e2 e3 e4 e5 e6 e7
    subst hm
    refine ⟨_, by simp only [List.append_assoc]; rfl, ?_, ?_, ?_, ?_⟩
    · rfl
    · rfl
    · intro c hc
      simp only [List.cons_append, List.nil_append, List.mem_cons, List.mem_singleton,
        List.not_mem_nil, or_false] at hc
      rcases hc with h | h | h | h | h | h | h <;> rw [h] <;> rfl
    · intro heap
      rfl

theorem RegisterPoolMetrics_registers_seven_live_metrics_witness :
    (RegisterPoolMetrics (fun _ _ => true) NewMetricsService "payments" 0).isSome = true :=
  (RegisterPoolMetrics_registers_seven_live_metrics (fun _ _ => true) NewMetricsService
    "payments" 0).1 (fun _ _ _ => rfl)

/-- With a registry that rejects a name already registered, a first registration of a
channel on a fresh service returns and a second registration of the same channel panics. -/
theorem RegisterPoolMetrics_same_channel_twice :
    (RegisterPoolMetrics rejectRegisteredName NewMetricsService "payments" 0).isSome = true ∧
    ((RegisterPoolMetrics rejectRegisteredName NewMetricsService "payments" 0).bind
      (fun m => RegisterPoolMetrics rejectRegisteredName m "payments" 1)).isSome = false := by
  constructor <;> decide

/-! ## Frame of `RecordTSSTransactionStatusTransition` -/

/-- C11. The call changes only counts of channel `c`, and of those only the counts of the
statuses `old` and `new`: the count of `(c2, s)` is unchanged for every channel `c2`
other than `c` and every status `s`, and the count of `(c, s)` is unchanged for every
status `s` other than `old` and `new`.  The registry and the pool map are untouched. -/
theorem transition_changes_only_its_own_counts (m : MetricsService) (c old new : String) :
    (∀ c2 s, c2 ≠ c →
      (RecordTSSTransactionStatusTransition m c old new).count c2 s = m.count c2 s) ∧
    (∀ s, s ≠ old → s ≠ new →
      (RecordTSSTransactionStatusTransition m c old new).count c s = m.count c s) ∧
    (RecordTSSTransactionStatusTransition m c old new).registry = m.registry ∧
    (RecordTSSTransactionStatusTransition m c old new).pools = m.pools := by
  refine ⟨?_, ?_, ?_, ?_⟩
  · intro c2 s hc
    rw [count_Record]
    simp [hc]
  · intro s hold hnew
    rw [count_Record]
    simp [hold, hnew]
  · unfold RecordTSSTransactionStatusTransition
    by_cases h : old = "" <;> simp [h]
  · unfold RecordTSSTransactionStatusTransition
    by_cases h : old = "" <;> simp [h]

theorem transition_changes_only_its_own_counts_witness :
    (RecordTSSTransactionStatusTransition
        (serviceWith [(("payments", "NEW"), 2), (("payments", "SUCCESS"), 5),
          (("webhooks", "NEW"), 3)]) "payments" "NEW" "SENT").count "webhooks" "NEW" = 3 ∧
    (RecordTSSTransactionStatusTransition
        (serviceWith [(("payments", "NEW"), 2), (("payments", "SUCCESS"), 5),
          (("webhooks", "NEW"), 3)]) "payments" "NEW" "SENT").count "payments" "SUCCESS" = 5 :=
  ⟨((transition_changes_only_its_own_counts
      (serviceWith [(("payments", "NEW"), 2), (("payments", "SUCCESS"), 5),
        (("webhooks", "NEW"), 3)]) "payments" "NEW" "SENT").1 "webhooks" "NEW"
      (by decide)).trans (by decide),
   ((transition_changes_only_its_own_counts
      (serviceWith [(("payments", "NEW"), 2), (("payments", "SUCCESS"), 5),
        (("webhooks", "NEW"), 3)]) "payments" "NEW" "SENT").2.1 "SUCCESS"
      (by decide) (by decide)).trans (by decide)⟩

/-! ## Names of the pool metrics -/

theorem differWithin_append (l1 l2 x y : List Char) (h : differWithin l1 l2 = true) :
    l1 ++ x ≠ l2 ++ y := by
  induction l1 generalizing l2 with
  | nil => simp [differWithin] at h
  | cons a as ih =>
    cases l2 with
    | nil => simp [differWithin] at h
    | cons b bs =>
      simp only [differWithin, Bool.or_eq_true, decide_eq_true_eq] at h
      intro heq
      simp only [List.cons_append, List.cons.injEq] at heq
      rcases h with h | h
      · exact h heq.1
      · exact ih bs h heq.2

theorem stems_differ :
    ∀ p1 ∈ poolMetricStems, ∀ p2 ∈ poolMetricStems,
      p1 = p2 ∨ differWithin p1.data p2.data = true := by
  decide

theorem stems_differ_from_fixed :
    ∀ p ∈ poolMetricStems, ∀ n ∈ fixedMetricNames, differWithin p.data n.data = true := by
  decide

theorem stems_differ_from_database_name :
    ∀ p ∈ poolMetricStems, differWithin p.data "wallet-backend-db".data = true := by
  decide

theorem append_left_cancel (p c1 c2 : String) (h : p ++ c1 = p ++ c2) : c1 = c2 := by
  have hd := congrArg String.data h
  simp only [String.data_append] at hd
  exact String.ext (List.append_cancel_left hd)

theorem stem_append_inj (p1 p2 c1 c2 : String) (h1 : p1 ∈ poolMetricStems)
    (h2 : p2 ∈ poolMetricStems) (h : p1 ++ c1 = p2 ++ c2) : p1 = p2 ∧ c1 = c2 := by
  rcases stems_differ p1 h1 p2 h2 with hp | hd
  · subst hp
    exact ⟨rfl, append_left_cancel p1 c1 c2 h⟩
  · have hdata := congrArg String.data h
    simp only [String.data_append] at hdata
    exact absurd hdata (differWithin_append _ _ _ _ hd)

theorem RegisterPoolMetrics_names (accepts : List Collector → Collector → Bool)
    (m m2 : MetricsService) (channel : String) (pool : PoolRef)
    (h : RegisterPoolMetrics accepts m channel pool = some m2) :
    m2.registry.map (fun c => c.Name) =
      m.registry.map (fun c => c.Name) ++ poolMetricNames channel := by
  simp only [RegisterPoolMetrics, Option.bind_eq_bind, Option.bind_eq_some, Option.pure_def,
    Option.some.injEq] at h
  obtain ⟨r1, h1, r2, h2, r3, h3, r4, h4, r5, h5, r6, h6, r7, h7, hm⟩ := h
  have e1 := MustRegister_eq_some _ _ _ _ h1
  have e2 := MustRegister_eq_some _ _ _ _ h2
  have e3 := MustRegister_eq_some _ _ _ _ h3
  have e4 := MustRegister_eq_some _ _ _ _ h4
  have e5 := MustRegister_eq_some _ _ _ _ h5
  have e6 := MustRegister_eq_some _ _ _ _ h6
  have e7 := MustRegister_eq_some _ _ _ _ h7
  subst e1 e2 e3 e4 e5 e6 e7
  subst hm
  simp [poolMetricNames, poolMetricStems, NewGaugeFunc, NewCounterFunc]

/-- C12. The metric names `RegisterPoolMetrics` builds never collide.  For the seven stems
`pool_workers_running_`, `pool_workers_idle_`, `pool_tasks_submitted_total_`,
`pool_tasks_waiting_`, `pool_tasks_successful_total_`, `pool_tasks_failed_total_`,
`pool_tasks_completed_total_` and all channels, `p1 ++ c1 = p2 ++ c2` only if `p1 = p2`
and `c1 = c2`; no such name is one of the eighteen names `NewMetricsService` registers;
the seven names of one channel are pairwise distinct, and no name of one channel is a
name of another channel.  The names a returning call adds to the registry are exactly
these seven, built from its channel. -/
theorem pool_metric_names_never_collide :
    fixedMetricNames.length = 18 ∧
    (∀ p1 ∈ poolMetricStems, ∀ p2 ∈ poolMetricStems, ∀ c1 c2 : String,
      p1 ++ c1 = p2 ++ c2 → p1 = p2 ∧ c1 = c2) ∧
    (∀ p ∈ poolMetricStems, ∀ c : String, p ++ c ∉ fixedMetricNames) ∧
    (∀ c : String, (poolMetricNames c).Nodup) ∧
    (∀ c1 c2 : String, c1 ≠ c2 → ∀ n ∈ poolMetricNames c1, n ∉ poolMetricNames c2) ∧
    (∀ (accepts : List Collector → Collector → Bool) (m m2 : MetricsService)
        (channel : String) (pool : PoolRef),
      RegisterPoolMetrics accepts m channel pool = some m2 →
      m2.registry.map (fun c => c.Name) =
        m.registry.map (fun c => c.Name) ++ poolMetricNames channel) := by
  refine ⟨by decide, ?_, ?_, ?_, ?_, ?_⟩
  · intro p1 h1 p2 h2 c1 c2 h
    exact stem_append_inj p1 p2 c1 c2 h1 h2 h
  · intro p hp c hmem
    have hd := stems_differ_from_fixed p hp (p ++ c) hmem
    have hne := differWithin_append p.data (p ++ c).data c.data [] hd
    apply hne
    simp only [String.data_append, List.append_nil]
  · intro c
    unfold poolMetricNames
    refine List.Nodup.map_on ?_ (by decide)
    intro x hx y hy hxy
    exact (stem_append_inj x y c c hx hy hxy).1
  · intro c1 c2 hne n h1 h2
    simp only [poolMetricNames, List.mem_map] at h1 h2
    obtain ⟨p1, hp1, e1⟩ := h1
    obtain ⟨p2, hp2, e2⟩ := h2
    exact hne (stem_append_inj p1 p2 c1 c2 hp1 hp2 (e1.trans e2.symm)).2
  · intro accepts m m2 channel pool h
    exact RegisterPoolMetrics_names accepts m m2 channel pool h

theorem pool_metric_names_never_collide_witness :
    "pool_workers_running_payments" ∈ poolMetricNames "payments" ∧
    "pool_workers_running_payments" ∉ poolMetricNames "payments_" ∧
    "pool_tasks_failed_total_" ++ "payments" ∉ fixedMetricNames :=
  ⟨by decide,
   pool_metric_names_never_collide.2.2.2.2.1 "payments" "payments_" (by decide)
     "pool_workers_running_payments" (by decide),
   pool_metric_names_never_collide.2.2.1 "pool_tasks_failed_total_" (by decide) "payments"⟩

end metrics

namespace services

theorem serve_exhausted (method : String) (arguments : List Value) (l : List Call)
    (h : ∀ c ∈ l, ¬ c.Repeatability > -1) : serve method arguments l = none := by
  induction l with
  | nil => rfl
  | cons c rest ih =>
    have hc := h c (List.mem_cons_self _ _)
    have hr := ih (fun x hx => h x (List.mem_cons_of_mem _ hx))
    simp [serve, hc, hr]

theorem Called_exhausted (m : Mock) (h : m.Exhausted) (method : String) (arguments : List Value) :
    m.Called method arguments = none := by
  simp [Mock.Called, serve_exhausted method arguments m.ExpectedCalls h]

theorem exec_forget_trace {α σ : Type} (w : Collaborators σ) (p : Prog α) (s : σ)
    (t1 t2 : List Invocation) :
    (p.exec w s t1).map (fun r => (r.1, r.2.1)) = (p.exec w s t2).map (fun r => (r.1, r.2.1)) := by
  induction p generalizing s t1 t2 with
  | done x => simp [Prog.exec]
  | panic => simp [Prog.exec]
  | GetAccountPublicKey c ctx k ih =>
    simp only [Prog.exec]
    cases h : w.GetAccountPublicKey c ctx s with
    | none => rfl
    | some x => obtain ⟨⟨key, err⟩, s2⟩ := x; exact ih key err s2 _ _
  | GetAccountLedgerSequence a k ih =>
    simp only [Prog.exec]
    cases h : w.GetAccountLedgerSequence a s with
    | none => rfl
    | some x => obtain ⟨⟨key, err⟩, s2⟩ := x; exact ih key err s2 _ _
  | SignStellarTransaction c ctx tx acc k ih =>
    simp only [Prog.exec]
    cases h : w.SignStellarTransaction c ctx tx acc s with
    | none => rfl
    | some x => obtain ⟨⟨key, err⟩, s2⟩ := x; exact ih key err s2 _ _
  | SignStellarFeeBumpTransaction c ctx tx k ih =>
    simp only [Prog.exec]
    cases h : w.SignStellarFeeBumpTransaction c ctx tx s with
    | none => rfl
    | some x => obtain ⟨⟨key, err⟩, s2⟩ := x; exact ih key err s2 _ _

theorem run_done {α : Type} (x : α) (ms : Mocks) : (Prog.done x).run ms = some (x, ms) := by
  simp [Prog.run, Prog.exec]

theorem run_panic {α : Type} (ms : Mocks) : (Prog.panic : Prog α).run ms = none := by
  simp [Prog.run, Prog.exec]

theorem run_GetAccountPublicKey {α : Type} (c : SignatureClient) (ctx : Context)
    (k : String → GoError → Prog α) (ms : Mocks) :
    (Prog.GetAccountPublicKey c ctx k).run ms =
      match (ms.client c).Called "GetAccountPublicKey" [.ctx ctx] with
      | none => none
      | some (returns, m) =>
        match asStringError returns with
        | none => none
        | some (key, err) => (k key err).run (ms.setClient c m) := by
  simp only [Prog.run, Prog.exec, mockCollaborators]
  cases h : (ms.client c).Called "GetAccountPublicKey" [.ctx ctx] with
  | none => rfl
  | some x =>
    obtain ⟨returns, m⟩ := x
    cases h2 : asStringError returns with
    | none => simp [h2]
    | some y =>
      obtain ⟨key, err⟩ := y
      simp only [h2, Option.map_some']
      exact exec_forget_trace _ _ _ _ _

theorem run_GetAccountLedgerSequence {α : Type} (address : String)
    (k : Int → GoError → Prog α) (ms : Mocks) :
    (Prog.GetAccountLedgerSequence address k).run ms =
      match ms.mockRPCService.Called "GetAccountLedgerSequence" [.str address] with
      | none => none
      | some (returns, m) =>
        match asInt64Error returns with
        | none => none
        | some (seq, err) => (k seq err).run { ms with mockRPCService := m } := by
  simp only [Prog.run, Prog.exec, mockCollaborators]
  cases h : ms.mockRPCService.Called "GetAccountLedgerSequence" [.str address] with
  | none => rfl
  | some x =>
    obtain ⟨returns, m⟩ := x
    cases h2 : asInt64Error returns with
    | none => simp [h2]
    | some y =>
      obtain ⟨seq, err⟩ := y
      simp only [h2, Option.map_some']
      exact exec_forget_trace _ _ _ _ _

theorem run_SignStellarTransaction {α : Type} (c : SignatureClient) (ctx : Context)
    (tx : Option Transaction) (accounts : List String)
    (k : Option Transaction → GoError → Prog α) (ms : Mocks) :
    (Prog.SignStellarTransaction c ctx tx accounts k).run ms =
      match (ms.client c).Called "SignStellarTransaction" [.ctx ctx, .tx tx, .strs accounts] with
      | none => none
      | some (returns, m) =>
        match asTransactionError returns with
        | none => none
        | some (signed, err) => (k signed err).run (ms.setClient c m) := by
  simp only [Prog.run, Prog.exec, mockCollaborators]
  cases h : (ms.client c).Called "SignStellarTransaction" [.ctx ctx, .tx tx, .strs accounts] with
  | none => rfl
  | some x =>
    obtain ⟨returns, m⟩ := x
    cases h2 : asTransactionError returns with
    | none => simp [h2]
    | some y =>
      obtain ⟨signed, err⟩ := y
      simp only [h2, Option.map_some']
      exact exec_forget_trace _ _ _ _ _

theorem run_SignStellarFeeBumpTransaction {α : Type} (c : SignatureClient) (ctx : Context)
    (tx : Option FeeBumpTransaction)
    (k : Option FeeBumpTransaction → GoError → Prog α) (ms : Mocks) :
    (Prog.SignStellarFeeBumpTransaction c ctx tx k).run ms =
      match (ms.client c).Called "SignStellarFeeBumpTransaction" [.ctx ctx, .feeBumpTx tx] with
      | none => none
      | some (returns, m) =>
        match asFeeBumpTransactionError returns with
        | none => none
        | some (signed, err) => (k signed err).run (ms.setClient c m) := by
  simp only [Prog.run, Prog.exec, mockCollaborators]
  cases h : (ms.client c).Called "SignStellarFeeBumpTransaction" [.ctx ctx, .feeBumpTx tx] with
  | none => rfl
  | some x =>
    obtain ⟨returns, m⟩ := x
    cases h2 : asFeeBumpTransactionError returns with
    | none => simp [h2]
    | some y =>
      obtain ⟨signed, err⟩ := y
      simp only [h2, Option.map_some']
      exact exec_forget_trace _ _ _ _ _

theorem run_exhausted {α : Type} (p : Prog α) (ms : Mocks)
    (hcl : ∀ c, (ms.client c).Exhausted) (hr : ms.mockRPCService.Exhausted)
    (r : α) (ms2 : Mocks) (h : p.run ms = some (r, ms2)) : p = .done r ∧ ms2 = ms := by
  cases p with
  | done x =>
    rw [run_done] at h
    simp only [Option.some.injEq, Prod.mk.injEq] at h
    exact ⟨by rw [h.1], h.2.symm⟩
  | panic => rw [run_panic] at h; exact absurd h (by simp)
  | GetAccountPublicKey c ctx k =>
    rw [run_GetAccountPublicKey, Called_exhausted _ (hcl c)] at h
    exact absurd h (by simp)
  | GetAccountLedgerSequence a k =>
    rw [run_GetAccountLedgerSequence, Called_exhausted _ hr] at h
    exact absurd h (by simp)
  | SignStellarTransaction c ctx tx acc k =>
    rw [run_SignStellarTransaction, Called_exhausted _ (hcl c)] at h
    exact absurd h (by simp)
  | SignStellarFeeBumpTransaction c ctx tx k =>
    rw [run_SignStellarFeeBumpTransaction, Called_exhausted _ (hcl c)] at h
    exact absurd h (by simp)

theorem serve_last (method : String) (arguments : List Value) (used : List Call) (e : Call)
    (h : ∀ c ∈ used, ¬ c.Repeatability > -1) :
    serve method arguments (used ++ [e]) =
      if e.Method = method ∧ argumentsMatch e.Arguments arguments = true ∧ e.Repeatability > -1
      then some (e.ReturnArguments, used ++ [e.served]) else none := by
  induction used with
  | nil =>
    by_cases hc : e.Method = method ∧ argumentsMatch e.Arguments arguments = true ∧
        e.Repeatability > -1
    · simp only [List.nil_append, serve, if_pos hc]
    · simp only [List.nil_append, serve, if_neg hc]
  | cons c rest ih =>
    have hc := h c (List.mem_cons_self _ _)
    have hr := ih (fun x hx => h x (List.mem_cons_of_mem _ hx))
    have hcond : ¬ (c.Method = method ∧ argumentsMatch c.Arguments arguments = true ∧
        c.Repeatability > -1) := fun hh => hc hh.2.2
    have hstep : serve method arguments (c :: (rest ++ [e])) =
        match serve method arguments (rest ++ [e]) with
        | none => none
        | some (returns, rest2) => some (returns, c :: rest2) := by
      simp only [serve, if_neg hcond]
    rw [List.cons_append, hstep, hr]
    by_cases he : e.Method = method ∧ argumentsMatch e.Arguments arguments = true ∧
        e.Repeatability > -1
    · simp only [if_pos he, List.cons_append]
    · simp only [if_neg he]

theorem AssertExpectations_pending (used : List Call) (calls : List (String × List Value))
    (returns : List Value) :
    Mock.AssertExpectations ⟨used ++ [expectPublicKey returns], calls⟩ = false := by
  simp [Mock.AssertExpectations, Mock.checkExpectation, expectPublicKey]

theorem client_setClient_same (ms : Mocks) (c : SignatureClient) (m : Mock) :
    (ms.setClient c m).client c = m := by
  cases c <;> rfl

theorem client_setClient_other (ms : Mocks) (c : SignatureClient) (m : Mock) :
    (ms.setClient c m).client c.other = ms.client c.other := by
  cases c <;> rfl

theorem rpc_setClient (ms : Mocks) (c : SignatureClient) (m : Mock) :
    (ms.setClient c m).mockRPCService = ms.mockRPCService := by
  cases c <;> rfl

theorem eq_other_of_ne (c c2 : SignatureClient) (h : c2 ≠ c) : c2 = c.other := by
  cases c <;> cases c2 <;> first | rfl | exact absurd rfl h

theorem Called_other_method (used : List Call) (calls : List (String × List Value))
    (returns : List Value) (method : String) (arguments : List Value)
    (hused : ∀ x ∈ used, ¬ x.Repeatability > -1) (hm : method ≠ "GetAccountPublicKey") :
    Mock.Called ⟨used ++ [expectPublicKey returns], calls⟩ method arguments = none := by
  have hcond : ¬ ((expectPublicKey returns).Method = method ∧
      argumentsMatch (expectPublicKey returns).Arguments arguments = true ∧
      (expectPublicKey returns).Repeatability > -1) := fun hh => hm hh.1.symm
  simp only [Mock.Called, serve_last method arguments used _ hused, if_neg hcond]

theorem Called_public_key (used : List Call) (calls : List (String × List Value))
    (returns : List Value) (ctx : Context)
    (hused : ∀ x ∈ used, ¬ x.Repeatability > -1) :
    Mock.Called ⟨used ++ [expectPublicKey returns], calls⟩ "GetAccountPublicKey" [.ctx ctx] =
      if ctx = Background then
        some (returns, ⟨used ++ [(expectPublicKey returns).served],
          calls ++ [("GetAccountPublicKey", [.ctx Background])]⟩)
      else none := by
  by_cases hctx : ctx = Background
  · subst hctx
    have hcond : (expectPublicKey returns).Method = "GetAccountPublicKey" ∧
        argumentsMatch (expectPublicKey returns).Arguments [.ctx Background] = true ∧
        (expectPublicKey returns).Repeatability > -1 := by
      simp [expectPublicKey, argumentsMatch, Matcher.accepts]
    simp only [Mock.Called, serve_last _ _ used _ hused, if_pos hcond, if_true]
    rfl
  · have hcond : ¬ ((expectPublicKey returns).Method = "GetAccountPublicKey" ∧
        argumentsMatch (expectPublicKey returns).Arguments [.ctx ctx] = true ∧
        (expectPublicKey returns).Repeatability > -1) := by
      intro hh
      apply hctx
      have h2 := hh.2.1
      simp [expectPublicKey, argumentsMatch, Matcher.accepts] at h2
      exact h2.symm
    simp only [Mock.Called, serve_last _ _ used _ hused, if_neg hcond, if_neg hctx]

/-- A run against mocks whose only live expectation is one `GetAccountPublicKey` on the
client `c`, and which leaves that client's expectations met, is exactly: that call, then
the return. -/
theorem run_one_public_key {α : Type} (p : Prog α) (ms : Mocks) (c : SignatureClient)
    (used : List Call) (calls : List (String × List Value)) (returns : List Value)
    (r : α) (ms2 : Mocks) (hrun : p.run ms = some (r, ms2))
    (hassert : (ms2.client c).AssertExpectations = true)
    (hc : ms.client c = ⟨used ++ [expectPublicKey returns], calls⟩)
    (hused : ∀ x ∈ used, ¬ x.Repeatability > -1)
    (hother : (ms.client c.other).Exhausted) (hrpc : ms.mockRPCService.Exhausted) :
    ∃ k key err, p = .GetAccountPublicKey c Background k ∧
      asStringError returns = some (key, err) ∧ k key err = .done r ∧
      ms2 = ms.setClient c ⟨used ++ [(expectPublicKey returns).served],
        calls ++ [("GetAccountPublicKey", [.ctx Background])]⟩ := by
  cases p with
  | done x =>
    rw [run_done] at hrun
    simp only [Option.some.injEq, Prod.mk.injEq] at hrun
    rw [← hrun.2, hc, AssertExpectations_pending] at hassert
    exact absurd hassert (by simp)
  | panic => rw [run_panic] at hrun; exact absurd hrun (by simp)
  | GetAccountPublicKey c2 ctx k =>
    rw [run_GetAccountPublicKey] at hrun
    by_cases hcc : c2 = c
    · subst hcc
      rw [hc, Called_public_key used calls returns ctx hused] at hrun
      by_cases hctx : ctx = Background
      · subst hctx
        simp only [if_true] at hrun
        cases hret : asStringError returns with
        | none => rw [hret] at hrun; exact absurd hrun (by simp)
        | some y =>
          obtain ⟨key, err⟩ := y
          rw [hret] at hrun
          simp only at hrun
          have hex : ∀ c3, ((ms.setClient c2 ⟨used ++ [(expectPublicKey returns).served],
              calls ++ [("GetAccountPublicKey", [.ctx Background])]⟩).client c3).Exhausted := by
            intro c3
            by_cases h3 : c3 = c2
            · subst h3
              rw [client_setClient_same]
              intro x hx
              simp only [List.mem_append, List.mem_singleton] at hx
              rcases hx with hx | hx
              · exact hused x hx
              · rw [hx]; simp [Call.served, expectPublicKey]
            · rw [eq_other_of_ne c2 c3 h3, client_setClient_other]
              exact hother
          have hres := run_exhausted _ _ hex (by rw [rpc_setClient]; exact hrpc) r ms2 hrun
          exact ⟨k, key, err, rfl, rfl, hres.1, hres.2⟩
      · rw [if_neg hctx] at hrun; exact absurd hrun (by simp)
    · rw [eq_other_of_ne c c2 hcc, Called_exhausted _ hother] at hrun
      exact absurd hrun (by simp)
  | GetAccountLedgerSequence a k =>
    rw [run_GetAccountLedgerSequence, Called_exhausted _ hrpc] at hrun
    exact absurd hrun (by simp)
  | SignStellarTransaction c2 ctx tx acc k =>
    rw [run_SignStellarTransaction] at hrun
    by_cases hcc : c2 = c
    · subst hcc
      rw [hc, Called_other_method used calls returns _ _ hused (by decide)] at hrun
      exact absurd hrun (by simp)
    · rw [eq_other_of_ne c c2 hcc, Called_exhausted _ hother] at hrun
      exact absurd hrun (by simp)
  | SignStellarFeeBumpTransaction c2 ctx tx k =>
    rw [run_SignStellarFeeBumpTransaction] at hrun
    by_cases hcc : c2 = c
    · subst hcc
      rw [hc, Called_other_method used calls returns _ _ hused (by decide)] at hrun
      exact absurd hrun (by simp)
    · rw [eq_other_of_ne c c2 hcc, Called_exhausted _ hother] at hrun
      exact absurd hrun (by simp)

theorem Exhausted_new : Mock.new.Exhausted := by
  intro c hc
  simp [Mock.new] at hc

theorem txService_of_test (minBaseFee : Int) (txService : TransactionService)
    (h : (NewTransactionService minBaseFee testOptions).1 = some txService) :
    txService = ⟨114⟩ := by
  unfold NewTransactionService at h
  cases hv : ValidateOptions minBaseFee testOptions with
  | some e => rw [hv] at h; simp at h
  | none =>
    rw [hv] at h
    simp only [Option.some.injEq] at h
    rw [← h]; rfl

theorem BuildFeeBumpTransaction_passes_test :
    TestBuildFeeBumpTransaction 100 (BuildFeeBumpTransaction (feeBumpBuilder checkFeeBump))
      feeBumpTestValues = true := by
  decide

/-- The mocks the first subtest of `TestBuildAndSignTransactionWithChannelAccount` leaves
when it passes. -/
theorem sign_first_subtest (method : SignMethod) (txService : TransactionService) (m1 : Mocks)
    (h1 : sign_get_account_public_key_err method txService Mocks.new = some m1) :
    m1 = { Mocks.new with channelAccountSignatureClient :=
      ⟨[(expectPublicKey [.str "", .error "channel accounts unavailable"]).served],
        [("GetAccountPublicKey", [.ctx Background])]⟩ } := by
  unfold sign_get_account_public_key_err at h1
  simp only at h1
  split at h1
  · exact absurd h1 (by simp)
  · rename_i tx err ms hrun
    split at h1
    · rename_i hcond
      simp only [Bool.and_eq_true] at hcond
      simp only [Option.some.injEq] at h1
      subst h1
      obtain ⟨k, key, e, _, _, _, hms⟩ := run_one_public_key _ _ .Channel [] []
        [Value.str "", Value.error "channel accounts unavailable"] (tx, err) ms hrun
        hcond.1.1 rfl (by simp) Exhausted_new Exhausted_new
      rw [hms]; rfl
    · exact absurd h1 (by simp)

/-- No text that ends with the cause `rpc service down` after `: ` is the text the subtest
`rpc_client_get_account_seq_err` expects. -/
theorem expected_text_drops_the_cause (label : String) :
    "getting channel account details from horizon: horizon down" ≠
      wrapError label "rpc service down" := by
  intro h
  have hd := congrArg (fun t => t.data.reverse) h
  simp only [wrapError, String.data_append, List.reverse_append] at hd
  have hdiff : metrics.differWithin
      "getting channel account details from horizon: horizon down".data.reverse
      "rpc service down".data.reverse = true := by decide
  exact metrics.differWithin_append _ _ [] (": ".data.reverse ++ label.data.reverse) hdiff
    (by rw [List.append_nil]; exact hd)

/-- The subtest `rpc_client_get_account_seq_err` injects the cause `rpc service down` and
expects a text that ends with `horizon down`: it rejects every method that answers the
failed sequence lookup with a label, `: ` and the injected cause, whatever the label. -/
theorem sign_second_subtest_rejects (method : SignMethod) (txService : TransactionService)
    (v : SignTestValues) (next : String → GoError → Prog SignResult)
    (next2 : Int → GoError → Prog SignResult) (result : Option Transaction) (label : String)
    (hcall : method txService Background [] 30 = .GetAccountPublicKey .Channel Background next)
    (hseq : next v.address2 none = .GetAccountLedgerSequence v.address2 next2)
    (hdone : next2 0 (some "rpc service down") =
      .done (result, some (wrapError label "rpc service down"))) :
    sign_rpc_client_get_account_seq_err method txService v
      { Mocks.new with channelAccountSignatureClient :=
        ⟨[(expectPublicKey [.str "", .error "channel accounts unavailable"]).served],
          [("GetAccountPublicKey", [.ctx Background])]⟩ } = none := by
  have htext := expected_text_drops_the_cause label
  simp [sign_rpc_client_get_account_seq_err, hcall, hseq, hdone, run_GetAccountPublicKey,
    run_GetAccountLedgerSequence, run_done, Mocks.client, Mocks.setClient, Mocks.new, Mock.new,
    Mock.OnReturnOnce, Mock.Called, serve, argumentsMatch, Matcher.accepts, Call.served,
    expectPublicKey, asStringError, asError, asInt64Error, assertErrorText, htext]

/-- The repository's test cannot be passed by a method that reports the cause of a failed
sequence lookup: no method passes `TestBuildAndSignTransactionWithChannelAccount` and
answers the failed lookup of its second subtest with a label, `: ` and the injected
cause.  The label the test names there, `getting channel account details from horizon`,
is rejected like any other. -/
theorem sequence_lookup_subtest_rejects_the_cause :
    ¬ ∃ (minBaseFee : Int) (method : SignMethod) (v : SignTestValues)
        (next : String → GoError → Prog SignResult) (next2 : Int → GoError → Prog SignResult)
        (result : Option Transaction) (label : String),
      TestBuildAndSignTransactionWithChannelAccount minBaseFee method v = true ∧
      method ⟨114⟩ Background [] 30 = .GetAccountPublicKey .Channel Background next ∧
      next v.address2 none = .GetAccountLedgerSequence v.address2 next2 ∧
      next2 0 (some "rpc service down") =
        .done (result, some (wrapError label "rpc service down")) := by
  rintro ⟨minBaseFee, method, v, next, next2, result, label, hpass, hcall, hseq, hdone⟩
  unfold TestBuildAndSignTransactionWithChannelAccount at hpass
  split at hpass
  · exact absurd hpass (by simp)
  · rename_i txService hservice
    have hs := txService_of_test minBaseFee txService hservice
    subst hs
    simp only [signSubtests, List.foldl, Option.some_bind] at hpass
    cases h1 : sign_get_account_public_key_err method ⟨114⟩ Mocks.new with
    | none => rw [h1] at hpass; simp at hpass
    | some m1 =>
      rw [h1] at hpass
      have hm1 := sign_first_subtest method ⟨114⟩ m1 h1
      have h2 := sign_second_subtest_rejects method ⟨114⟩ v next next2 result label hcall hseq
        hdone
      rw [← hm1] at h2
      simp [h2] at hpass

/-- The modelled method passes every subtest of the repository's test but the second: the
first, and after it the third, fourth and fifth. -/
theorem BuildAndSign_passes_other_subtests :
    ((((sign_get_account_public_key_err
        (BuildAndSignTransactionWithChannelAccount (transactionBuilder checkTransaction)) ⟨114⟩
        Mocks.new).bind
      (sign_build_tx_fails
        (BuildAndSignTransactionWithChannelAccount (transactionBuilder checkTransaction)) ⟨114⟩
        signTestValues)).bind
      (sign_stellar_transaction_w_channel_account_err
        (BuildAndSignTransactionWithChannelAccount (transactionBuilder checkTransaction)) ⟨114⟩
        signTestValues)).bind
      (sign_returns_signed_tx
        (BuildAndSignTransactionWithChannelAccount (transactionBuilder checkTransaction)) ⟨114⟩
        signTestValues)).isSome = true := by
  decide

theorem ValidateOptions_passes_test (minBaseFee : Int) :
    TestValidateOptions minBaseFee (ValidateOptions minBaseFee) = true := by
  have h : minBaseFee - 10 < minBaseFee := by omega
  simp [TestValidateOptions, ValidateOptions, assertErrorText, h]

/-- C5. When exactly one of the three collaborators is nil, `ValidateOptions` returns the
error that names it, whatever the base fee, and `NewTransactionService` returns that
error and no service. -/
theorem missing_dependency_is_named (minBaseFee : Int) (o : TransactionServiceOptions) :
    (o.DistributionAccountSignatureClient = none → o.ChannelAccountSignatureClient ≠ none →
      o.RPCService ≠ none →
      ValidateOptions minBaseFee o =
        some "distribution account signature client cannot be nil" ∧
      NewTransactionService minBaseFee o =
        (none, some "distribution account signature client cannot be nil")) ∧
    (o.DistributionAccountSignatureClient ≠ none → o.ChannelAccountSignatureClient = none →
      o.RPCService ≠ none →
      ValidateOptions minBaseFee o = some "channel account signature client cannot be nil" ∧
      NewTransactionService minBaseFee o =
        (none, some "channel account signature client cannot be nil")) ∧
    (o.DistributionAccountSignatureClient ≠ none → o.ChannelAccountSignatureClient ≠ none →
      o.RPCService = none →
      ValidateOptions minBaseFee o = some "rpc client cannot be nil" ∧
      NewTransactionService minBaseFee o = (none, some "rpc client cannot be nil")) := by
  refine ⟨?_, ?_, ?_⟩
  · intro hd _ _
    simp [NewTransactionService, ValidateOptions, hd]
  · intro hd hc _
    simp [NewTransactionService, ValidateOptions, hd, hc]
  · intro hd hc hr
    simp [NewTransactionService, ValidateOptions, hd, hc, hr]

theorem missing_dependency_is_named_witness :
    NewTransactionService 100
        { DistributionAccountSignatureClient := some (), ChannelAccountSignatureClient := none,
          RPCService := some (), BaseFee := 1 } =
      (none, some "channel account signature client cannot be nil") :=
  ((missing_dependency_is_named 100
      { DistributionAccountSignatureClient := some (), ChannelAccountSignatureClient := none,
        RPCService := some (), BaseFee := 1 }).2.1 (by decide) rfl (by decide)).2

/-- C6. With the three collaborators present, `ValidateOptions` succeeds exactly when the
base fee is at or above the minimum, and below it returns the fee error; a base fee equal
to the minimum is accepted. -/
theorem base_fee_at_or_above_minimum_is_accepted (minBaseFee : Int)
    (o : TransactionServiceOptions)
    (hd : o.DistributionAccountSignatureClient ≠ none)
    (hc : o.ChannelAccountSignatureClient ≠ none) (hr : o.RPCService ≠ none) :
    (ValidateOptions minBaseFee o = none ↔ minBaseFee ≤ o.BaseFee) ∧
    (o.BaseFee < minBaseFee →
      ValidateOptions minBaseFee o = some "base fee is lower than the minimum network fee") ∧
    ValidateOptions minBaseFee { o with BaseFee := minBaseFee } = none := by
  refine ⟨?_, ?_, ?_⟩
  · by_cases h : o.BaseFee < minBaseFee
    · simp [ValidateOptions, hd, hc, hr, h]
    · simp [ValidateOptions, hd, hc, hr, h]; omega
  · intro h
    simp [ValidateOptions, hd, hc, hr, h]
  · simp [ValidateOptions, hd, hc, hr]

theorem base_fee_at_or_above_minimum_is_accepted_witness :
    testOptions.DistributionAccountSignatureClient ≠ none ∧
    testOptions.ChannelAccountSignatureClient ≠ none ∧ testOptions.RPCService ≠ none ∧
    (ValidateOptions 100 testOptions = none ↔ (100 : Int) ≤ testOptions.BaseFee) ∧
    ValidateOptions 100 { testOptions with BaseFee := 100 } = none :=
  ⟨by decide, by decide, by decide,
   (base_fee_at_or_above_minimum_is_accepted 100 testOptions (by decide) (by decide)
      (by decide)).1,
   (base_fee_at_or_above_minimum_is_accepted 100 testOptions (by decide) (by decide)
      (by decide)).2.2⟩

end services
